import Mathlib

/-!
Shallow embedding of the LBP face-detection host library (Adapteva Epiphany
face_detect repository, file EpFaceHost ep_cascade_detector implementation)
together with theorems settling the specification claims.

Conventions of the embedding:
* C `int` values are embedded as `ℕ` wherever the source keeps them
  nonnegative, and as `ℤ` where the source can produce negative values
  (task widths, signed 32-bit fields read from byte blobs).
* Byte buffers (image pixel data, classifier blobs) are `List ℕ`, each
  element a byte value; reads use `List.getD` with default 0.
* `malloc` never fails in the model and returns zero-initialised storage
  (the source leaves fresh buffer contents undefined).
* The header ep_cascade_detector.h is not part of the available sources;
  node layouts, magic numbers, scan-mode and error-code values and the
  tiling budget constants are modelled from the specification where they
  are needed, as noted on each such definition.
-/

namespace FaceDetect

/-- Source divide_up: divide two positive integers rounding the result up. -/
def divide_up (x y : ℕ) : ℕ := (x + y - 1) / y

/-- Source divide_round: divide two positive integers rounding to nearest. -/
def divide_round (x y : ℕ) : ℕ := (x + y / 2) / y

/-- Source round_down_to_8n: x & (-8) on a nonnegative two's-complement int. -/
def round_down_to_8n (x : ℕ) : ℕ := x / 8 * 8

/-- Source round_up_to_8n: (x + 7) & (-8) on a nonnegative two's-complement int. -/
def round_up_to_8n (x : ℕ) : ℕ := (x + 7) / 8 * 8

/-- Source round_to_8n: (x + 4) & (-8) on a nonnegative two's-complement int. -/
def round_to_8n (x : ℕ) : ℕ := (x + 4) / 8 * 8

/-- Source round_up_to_8n applied to a possibly negative int: (x + 7) & (-8)
in two's complement, i.e. rounding toward negative infinity to a multiple
of 8 after adding 7. -/
def round_up_to_8nZ (x : ℤ) : ℤ := 8 * ((x + 7).fdiv 8)

/-- Modelled from the spec: error kinds of section 7 (the enum EpErrorCode of
the missing header); only distinctness of the values matters. -/
inductive EpErrorCode where
  | errSuccess
  | errArgument
  | errFile
  | errFileContents
  | errMemory
  | errOther
deriving DecidableEq, Repr

/-- Source EpImage: row-major 8-bit grayscale buffer with byte alignment.
The data pointer becomes a byte list; an empty image has an empty list. -/
structure EpImage where
  data : List ℕ
  width : ℕ
  height : ℕ
  step : ℕ
deriving DecidableEq, Repr

/-- Source ep_image_create_empty. -/
def epImageCreateEmpty : EpImage := ⟨[], 0, 0, 0⟩

/-- Source ep_image_is_empty: true exactly when the data pointer is null. -/
def epImageIsEmpty (image : EpImage) : Bool := image.data = []

/-- Source ep_image_create: step is the width rounded up to a multiple of 8,
the buffer holds step * height bytes.  malloc is modelled as always
succeeding and zero-initialised (the source leaves the contents undefined). -/
def epImageCreate (width height : ℕ) : EpImage :=
  ⟨List.replicate (round_up_to_8n width * height) 0, width, height, round_up_to_8n width⟩

/-- Reading pixel (x, y) of an image: image->data[y * step + x]. -/
def epPixel (image : EpImage) (x y : ℕ) : ℕ :=
  image.data.getD (y * image.step + x) 0

/-- Source ep_image_checksum: sum of the width * height pixel bytes, with the
contiguous fast path taken when step equals width exactly as in the source. -/
def epImageChecksum (image : EpImage) : ℕ :=
  if image.step = image.width then
    ((List.range (image.width * image.height)).map (fun i => image.data.getD i 0)).sum
  else
    ((List.range image.height).map (fun y =>
      ((List.range image.width).map (fun x => epPixel image x y)).sum)).sum

/-- Modelled from the spec: the image file magic number FILE_ID_IMAGE of the
missing header; only its distinctness from FILE_ID_CLASSIFIER matters. -/
def FILE_ID_IMAGE : ℕ := 1

/-- Modelled from the spec: the classifier file magic number FILE_ID_CLASSIFIER
of the missing header. -/
def FILE_ID_CLASSIFIER : ℕ := 2

/-- An image file as written by ep_image_save: int32 magic, int32 width,
int32 height, then width * height raw row-packed pixel bytes.  The three
header ints are modelled as structure fields, the payload as a byte list
(possibly shorter than width * height for a truncated file). -/
structure EpImageFile where
  magic : ℕ
  width : ℕ
  height : ℕ
  pixels : List ℕ
deriving DecidableEq, Repr

/-- The pixel rows of an image as written to a file: for each y the width
bytes starting at data + y * step. -/
def fileRows (image : EpImage) : List (List ℕ) :=
  (List.range image.height).map (fun y => (image.data.drop (y * image.step)).take image.width)

/-- Source ep_image_save.  File-system failures (fopen, short fwrite) are
external and not modelled; the function otherwise produces the file contents.
The source writes the buffer contiguously when step equals width and row by
row otherwise, reflected by the two branches. -/
def epImageSave (image : EpImage) : Except EpErrorCode EpImageFile :=
  if epImageIsEmpty image then .error .errArgument
  else if image.width = 0 ∨ image.height = 0 then .error .errArgument
  else if image.step = image.width then
    .ok ⟨FILE_ID_IMAGE, image.width, image.height, image.data.take (image.width * image.height)⟩
  else
    .ok ⟨FILE_ID_IMAGE, image.width, image.height, (fileRows image).flatten⟩

/-- Source ep_image_load on a file whose three header ints are readable.
The payload fread reads min(pixels.length, width * height) bytes contiguously
into the freshly created buffer.  When fewer than width * height bytes are
available the source stores ERR_FILE_CONTENTS and releases the image but is
missing a return statement, so control falls through to the epilogue that
overwrites the error code with ERR_SUCCESS; the model reproduces exactly that
observable behaviour. -/
def epImageLoad (file : EpImageFile) : EpImage × EpErrorCode :=
  if file.magic ≠ FILE_ID_IMAGE then (epImageCreateEmpty, .errFileContents)
  else if file.width = 0 then (epImageCreateEmpty, .errFileContents)
  else if file.height = 0 then (epImageCreateEmpty, .errFileContents)
  else
    let result := epImageCreate file.width file.height
    let dataSize := file.width * file.height
    if file.pixels.length < dataSize then
      (epImageCreateEmpty, .errSuccess)
    else
      ({ result with data := file.pixels.take dataSize ++ result.data.drop dataSize },
       .errSuccess)

/-- Source ep_image_release: the released image is the empty image. -/
def epImageRelease (_image : EpImage) : EpImage := epImageCreateEmpty

/-! ## Cascade classifier blob

A classifier is a contiguous byte blob (EpCascadeClassifier owns data and
size; in the model the size is the length of the byte list). -/

/-- A classifier blob: the byte buffer of EpCascadeClassifier. -/
abbrev EpCascadeClassifier := List ℕ

/-- Source ep_classifier_is_empty: the data pointer is null. -/
def epClassifierIsEmpty (c : EpCascadeClassifier) : Bool := c = []

/-- Source ep_classifier_checksum: sum of the blob bytes.  The char signedness
of the summands is platform dependent in C; the claims settled here use only
that equal blobs have equal checksums, so bytes are summed as naturals. -/
def epClassifierChecksum (c : EpCascadeClassifier) : ℕ := c.sum

/-- Reading an unsigned 32-bit little-endian value at byte offset p. -/
def readU32 (l : List ℕ) (p : ℕ) : ℕ :=
  l.getD p 0 + 256 * l.getD (p + 1) 0 + 65536 * l.getD (p + 2) 0 +
    16777216 * l.getD (p + 3) 0

/-- Interpreting a 32-bit value as a signed two's-complement int. -/
def toSigned32 (n : ℕ) : ℤ :=
  if n < 2 ^ 31 then (n : ℤ) else (n : ℤ) - 2 ^ 32

/-- Reading a signed 32-bit int at byte offset p, as the source does with
a cast of the byte pointer to int pointer. -/
def readS32 (l : List ℕ) (p : ℕ) : ℤ := toSigned32 (readU32 l p)

/-- Modelled from the spec: the node type code of a Decision node.  The value
0 is forced by the interpreter, which distinguishes Decision nodes by a zero
leading byte. -/
def NODE_DECISION : ℤ := 0

/-- Modelled from the spec: the node type code of a Stage node (nonzero,
distinct from the other codes; the header with the exact values is missing). -/
def NODE_STAGE : ℤ := 1

/-- Modelled from the spec: the node type code of a Final node. -/
def NODE_FINAL : ℤ := 2

/-- Modelled from the spec: the node type code of a Meta node. -/
def NODE_META : ℤ := 3

/-- Modelled from the spec: sizeof(EpNodeMeta).  The spec gives the Meta
payload as window width and height; with the leading int32 type code and
int32 fields this is 12 bytes. -/
def sizeofNodeMeta : ℕ := 12

/-- Modelled from the spec: sizeof(EpNodeDecision).  Leading int32 type code,
a packed int32 feature descriptor, the lookup table of per-subset bit-scores
(eight 32-bit subsets, indexed by the 3-bit subset index, each holding 32
score bits indexed by the 5-bit bit index) and an int32 score: 44 bytes. -/
def sizeofNodeDecision : ℕ := 44

/-- Modelled from the spec: sizeof(EpNodeStage), a leading int32 type code and
an int32 threshold: 8 bytes. -/
def sizeofNodeStage : ℕ := 8

/-- Modelled from the spec: sizeof(EpNodeFinal), the int32 type code alone:
4 bytes. -/
def sizeofNodeFinal : ℕ := 4

/-- Source ep_classifier_check: structural validation of a classifier blob,
returning 0 for good data and a distinct nonzero code per violation, checked
in exactly the order of the source. -/
def epClassifierCheck (c : EpCascadeClassifier) : ℕ :=
  if epClassifierIsEmpty c then 1
  else if c.length < sizeofNodeMeta + sizeofNodeDecision + sizeofNodeStage + sizeofNodeFinal
    then 2
  else if readS32 c 0 ≠ NODE_META then 3
  else if readS32 c 8 < 3 ∨ readS32 c 4 < 3 then 4
  else if readS32 c sizeofNodeMeta ≠ NODE_DECISION then 5
  else if readS32 c (c.length - sizeofNodeFinal) ≠ NODE_FINAL then 6
  else if readS32 c (c.length - sizeofNodeFinal - sizeofNodeStage) ≠ NODE_STAGE then 7
  else 0

/-- Source ep_classifier_clone: a byte-for-byte copy of the blob. -/
def epClassifierClone (c : EpCascadeClassifier) : EpCascadeClassifier := c

/-- A classifier file as written by ep_classifier_save: int32 magic,
int32 size, then size raw bytes. -/
structure EpClassifierFile where
  magic : ℕ
  size : ℕ
  data : List ℕ
deriving DecidableEq, Repr

/-- Source ep_classifier_save; file-system failures are external and not
modelled. -/
def epClassifierSave (c : EpCascadeClassifier) : Except EpErrorCode EpClassifierFile :=
  if epClassifierIsEmpty c then .error .errArgument
  else if c.length = 0 then .error .errArgument
  else .ok ⟨FILE_ID_CLASSIFIER, c.length, c⟩

/-- Source ep_classifier_load on a file whose two header ints are readable.
Unlike ep_image_load, every error branch here returns properly. -/
def epClassifierLoad (file : EpClassifierFile) : EpCascadeClassifier × EpErrorCode :=
  if file.magic ≠ FILE_ID_CLASSIFIER then ([], .errFileContents)
  else if file.size = 0 then ([], .errFileContents)
  else if file.data.length < file.size then ([], .errFileContents)
  else
    let result := file.data.take file.size
    if epClassifierCheck result ≠ 0 then ([], .errFileContents)
    else (result, .errSuccess)

/-! ## Classifier interpreter (decision VM) -/

/-- The sign-bit extraction of the source decision computation: for 32-bit
two's-complement ints, ( (unsigned)~(a - b) & (1 << 31) ) >> 31 is 1 exactly
when a - b is nonnegative, i.e. when b ≤ a. -/
def notLessBit (a b : ℤ) : ℕ := if b ≤ a then 1 else 0

/-- Source calc_lbp_decision.  The image memory is a total byte function over
integer addresses (the source reads raw memory through an unchecked pointer);
pos is the sampling position passed as image_data, step the line stride.
The node fields are read from the blob at the node byte offset: feature at
offset 4, the subsets table at offset 8, exactly as laid out in the modelled
EpNodeDecision.  Integer divisions (feature_width - 1) / 4 agree between C
truncation and natural division for the feature sizes of at least 1 produced
by the converter; a zero feature size is degenerate in the source as well. -/
def calcLbpDecision (mem : ℤ → ℕ) (pos step : ℤ) (blob : List ℕ) (nodePos : ℕ) : ℕ :=
  let feature := readU32 blob (nodePos + 4)
  let shiftX : ℤ := (feature / 65536) % 256
  let shiftY : ℤ := (toSigned32 feature).fdiv (2 ^ 24)
  let base := pos + shiftX + shiftY * step
  let fw : ℕ := feature % 256
  let fh : ℕ := (feature / 256) % 256
  let m : ℤ → ℤ → ℕ := fun row col => mem (base + row * step + col)
  let sums : ℕ × ℕ × ℕ × ℕ × ℕ × ℕ × ℕ × ℕ × ℕ :=
    if fw = 1 then
      if fh = 1 then
        (m 0 0, m 0 1, m 0 2,
         m 1 0, m 1 1, m 1 2,
         m 2 0, m 2 1, m 2 2)
      else
        let stepY : ℤ := ((fh - 1) / 4 : ℕ)
        let r0 := stepY
        let r1 := ((fh : ℤ) - stepY - 1)
        let r2 := r0 + fh
        let r3 := r1 + fh
        let r4 := r2 + fh
        let r5 := r3 + fh
        (m r0 0 + m r1 0, m r0 1 + m r1 1, m r0 2 + m r1 2,
         m r2 0 + m r3 0, m r2 1 + m r3 1, m r2 2 + m r3 2,
         m r4 0 + m r5 0, m r4 1 + m r5 1, m r4 2 + m r5 2)
    else
      let stepX : ℤ := ((fw - 1) / 4 : ℕ)
      let x1 := stepX
      let x2 := (fw : ℤ) - stepX - 1
      let x3 := x1 + fw
      let x4 := x2 + fw
      let x5 := x3 + fw
      let x6 := x4 + fw
      if fh = 1 then
        (m 0 x1 + m 0 x2, m 0 x3 + m 0 x4, m 0 x5 + m 0 x6,
         m 1 x1 + m 1 x2, m 1 x3 + m 1 x4, m 1 x5 + m 1 x6,
         m 2 x1 + m 2 x2, m 2 x3 + m 2 x4, m 2 x5 + m 2 x6)
      else
        let stepY : ℤ := ((fh - 1) / 4 : ℕ)
        let r0 := stepY
        let r1 := ((fh : ℤ) - stepY - 1)
        let r2 := r0 + fh
        let r3 := r1 + fh
        let r4 := r2 + fh
        let r5 := r3 + fh
        (m r0 x1 + m r0 x2 + m r1 x1 + m r1 x2,
         m r0 x3 + m r0 x4 + m r1 x3 + m r1 x4,
         m r0 x5 + m r0 x6 + m r1 x5 + m r1 x6,
         m r2 x1 + m r2 x2 + m r3 x1 + m r3 x2,
         m r2 x3 + m r2 x4 + m r3 x3 + m r3 x4,
         m r2 x5 + m r2 x6 + m r3 x5 + m r3 x6,
         m r4 x1 + m r4 x2 + m r5 x1 + m r5 x2,
         m r4 x3 + m r4 x4 + m r5 x3 + m r5 x4,
         m r4 x5 + m r4 x6 + m r5 x5 + m r5 x6)
  match sums with
  | (s00, s01, s02, s10, s11, s12, s20, s21, s22) =>
    let subsetIndex : ℕ :=
      4 * notLessBit s00 s11 + 2 * notLessBit s01 s11 + notLessBit s02 s11
    let bitIndex : ℕ :=
      16 * notLessBit s12 s11 + 8 * notLessBit s22 s11 + 4 * notLessBit s21 s11 +
        2 * notLessBit s20 s11 + notLessBit s10 s11
    readU32 blob (nodePos + 8 + 4 * subsetIndex) / 2 ^ bitIndex % 2

/-- Outcome of running the classify interpreter on a blob. -/
inductive ClassifyOut where
  | accept
  | reject
  | oob
  | stuck
deriving DecidableEq, Repr

/-- The score contribution of a Decision node at nodePos:
node->score & -calc_lbp_decision(...), which for two's-complement masking is
the score when the decision bit is 1 and 0 otherwise. -/
def decisionScore (mem : ℤ → ℕ) (pos step : ℤ) (blob : List ℕ) (nodePos : ℕ) : ℤ :=
  if calcLbpDecision mem pos step blob nodePos = 1 then readS32 blob (nodePos + 40) else 0

/-- The loop of source classify, as a fueled step machine over byte offsets.
Every memory access of the source beyond the blob is reported as oob; the
source itself performs the access blindly.  Each iteration advances the node
offset by at least sizeofNodeStage bytes, so fuel of the blob length always
suffices for a run that stays inside the blob. -/
def classifyLoop (mem : ℤ → ℕ) (pos step : ℤ) (blob : List ℕ) :
    ℕ → ℕ → ℤ → ClassifyOut
  | 0, _, _ => .stuck
  | fuel + 1, nodePos, score =>
    if blob.length ≤ nodePos then .oob
    else if blob.getD nodePos 0 = 0 then
      if blob.length < nodePos + sizeofNodeDecision then .oob
      else
        classifyLoop mem pos step blob fuel (nodePos + sizeofNodeDecision)
          (score + decisionScore mem pos step blob nodePos)
    else
      if blob.length < nodePos + sizeofNodeStage then .oob
      else if score < readS32 blob (nodePos + 4) then .reject
      else
        let p := nodePos + sizeofNodeStage
        if blob.length ≤ p then .oob
        else if blob.getD p 0 ≠ 0 then .accept
        else if blob.length < p + sizeofNodeDecision then .oob
        else
          classifyLoop mem pos step blob fuel (p + sizeofNodeDecision)
            (decisionScore mem pos step blob p)

/-- Source classify: the first node after the Meta node is treated as a
Decision node unconditionally, then the loop runs.  nodePos is the byte
offset of that first node (sizeofNodeMeta for a whole classifier blob). -/
def classify (mem : ℤ → ℕ) (pos step : ℤ) (blob : List ℕ) (nodePos fuel : ℕ) :
    ClassifyOut :=
  if blob.length < nodePos + sizeofNodeDecision then .oob
  else
    classifyLoop mem pos step blob fuel (nodePos + sizeofNodeDecision)
      (decisionScore mem pos step blob nodePos)

/-! ## Host scan driver -/

/-- Modelled from the spec: the checkerboard scan mode covering positions of
even x + y parity.  The parity arithmetic (y + scan_mode) & 1 of the source
forces this value to be even. -/
def SCAN_EVEN : ℕ := 0

/-- Modelled from the spec: the checkerboard scan mode covering positions of
odd x + y parity (an odd value by the source parity arithmetic). -/
def SCAN_ODD : ℕ := 1

/-- Modelled from the spec: the full scan mode, testing every position
(distinct from the two parity modes). -/
def SCAN_FULL : ℕ := 2

/-- A detection rectangle; the source stores float coordinates, modelled as
exact rationals. -/
structure EpRect where
  x : ℚ
  y : ℚ
  width : ℚ
  height : ℚ
deriving DecidableEq, Repr

/-- The loop bounds of detect_single_scale_host: the x start of a scan line,
0 for a full scan and (y + scan_mode) & 1 otherwise. -/
def xStart (scanMode y : ℕ) : ℕ :=
  if scanMode = SCAN_FULL then 0 else (y + scanMode) % 2

/-- The x increment of a scan line: 1 for a full scan and 2 otherwise. -/
def xStep (scanMode : ℕ) : ℕ :=
  if scanMode = SCAN_FULL then 1 else 2

/-- The x positions visited by one scan line of detect_single_scale_host:
x = x_start, x_start + x_step, ... below process_width. -/
def scannedXs (scanMode y processWidth : ℕ) : List ℕ :=
  (List.range processWidth).filter
    (fun x => xStart scanMode y ≤ x ∧ (x - xStart scanMode y) % xStep scanMode = 0)

/-- The window positions tested by detect_single_scale_host on an image of
the given process area (process_width = width + 1 - window_width and likewise
for the height, both clamped at zero as in the source loop bounds). -/
def scannedPositions (scanMode processWidth processHeight : ℕ) : List (ℕ × ℕ) :=
  (List.range processHeight).flatMap
    (fun y => (scannedXs scanMode y processWidth).map (fun x => (x, y)))

/-- Source detect_single_scale_host: scan the valid window positions, run the
classifier interpreter at each, and append an absolute rectangle for each
accept.  The classifier window is read from the leading Meta node; scanning
starts after that node.  The parallel OpenMP rows and the critical section
around the list append are modelled by the equivalent sequential fold. -/
def detectSingleScaleHost (image : EpImage) (classifier : EpCascadeClassifier)
    (objects : List EpRect) (scale : ℚ) (offsetX offsetY : ℤ) (scanMode : ℕ) :
    List EpRect :=
  let windowWidth := readU32 classifier 4
  let windowHeight := readU32 classifier 8
  let processWidth := image.width + 1 - windowWidth
  let processHeight := image.height + 1 - windowHeight
  let detectionWidth : ℚ := windowWidth * scale
  let detectionHeight : ℚ := windowHeight * scale
  let mem : ℤ → ℕ := fun a => image.data.getD a.toNat 0
  (scannedPositions scanMode processWidth processHeight).foldl
    (fun objs xy =>
      if classify mem ((xy.2 * image.step + xy.1 : ℕ) : ℤ) (image.step : ℤ)
          classifier sizeofNodeMeta (classifier.length + 1) = .accept then
        objs ++ [⟨(xy.1 : ℚ) * scale + (offsetX : ℚ), (xy.2 : ℚ) * scale + (offsetY : ℚ),
          detectionWidth, detectionHeight⟩]
      else objs)
    objects

/-- Source convert_image_index_to_scale: the factor
(8 << (image_index / 4)) / (8 - image_index % 4) mapping pyramid level
coordinates to source image coordinates, with the float value modelled as an
exact rational. -/
def convert_image_index_to_scale (imageIndex : ℕ) : ℚ :=
  ((8 <<< (imageIndex / 4) : ℕ) : ℚ) / ((8 - imageIndex % 4 : ℕ) : ℚ)

/-! ## Tiling scheduler -/

/-- Source EpImageProp: the descriptor of one pyramid level inside the packed
shared region. -/
structure EpImageProp where
  dataOffset : ℕ
  step : ℕ
  width : ℕ
  height : ℕ
deriving DecidableEq, Repr

/-- Source EpTaskItem: one rectangular tile of a pyramid level.  The width,
step and area are C ints that can become negative for degenerate geometries,
so they are embedded as integers; the remaining fields stay nonnegative. -/
structure EpTaskItem where
  offset : ℕ
  area : ℤ
  width : ℤ
  height : ℕ
  step : ℤ
  scanMode : ℕ
  itemsCount : ℕ
  imageIndex : ℕ
  objects : List ℕ
deriving DecidableEq, Repr

/-- The tile grid of add_tasks_for_image: the pair
(tiles_hor, tiles_ver) computed from the level geometry, the window, the
recommended tile size and the byte budget, following the two branches of the
source (RECOMMENDED_TILE_SIZE and MAX_TILE_BYTES are build constants of the
missing header, kept as the parameters R and MTB). -/
def tilesGrid (w h ww wh R MTB : ℕ) : ℕ × ℕ :=
  let ow := ww - 1
  let oh := wh - 1
  let iw := w - ow
  let ih := h - oh
  if ih < iw then
    let tv0 := divide_round ih (R - oh)
    let tv := if tv0 = 0 then 1 else tv0
    let maxTileHeight := divide_up (ih + oh * tv) tv
    let maxTileStep := round_down_to_8n (round_down_to_8n (MTB / maxTileHeight) - ow) + ow
    (divide_up iw (maxTileStep - ow), tv)
  else
    let th0 := divide_round iw (R - ow)
    let th := if th0 = 0 then 1 else th0
    let maxTileStep := round_up_to_8n (round_up_to_8n (divide_up (iw + ow * th) th - ow) + ow)
    let tileHeight := MTB / maxTileStep
    (th, divide_up ih (tileHeight - oh))

/-- The vertical tile boundary of add_tasks_for_image:
divide_round(image_height * tile_y, tiles_ver). -/
def tileY1 (ih tv ty : ℕ) : ℕ := divide_round (ih * ty) tv

/-- The horizontal tile start of add_tasks_for_image:
round_to_8n(divide_round(image_width * tile_x, tiles_hor)). -/
def tileX1 (iw th tx : ℕ) : ℕ := round_to_8n (divide_round (iw * tx) th)

/-- The horizontal tile end of add_tasks_for_image: the final tile of a row
is stretched to image_width + overlap_width, every other tile ends at the
next rounded boundary plus the overlap. -/
def tileX2 (iw ow th tx : ℕ) : ℕ :=
  if tx + 1 = th then iw + ow else tileX1 iw th (tx + 1) + ow

/-- One loop iteration of add_tasks_for_image: the task appended for
tile_index, including the area = step * height stored by ep_task_list_add
and the per-tile checkerboard parity (tile_x1 + tile_y1 + scan_mode) & 1. -/
def taskAtIndex (scanMode : ℕ) (prop : EpImageProp) (imgIndex ww wh R MTB tileIndex : ℕ) :
    EpTaskItem :=
  let ow := ww - 1
  let oh := wh - 1
  let iw := prop.width - ow
  let ih := prop.height - oh
  let grid := tilesGrid prop.width prop.height ww wh R MTB
  let th := grid.1
  let tv := grid.2
  let ty := tileIndex / th
  let y1 := tileY1 ih tv ty
  let y2 := tileY1 ih tv (ty + 1) + oh
  let tileHeight := y2 - y1
  let tx := tileIndex % th
  let x1 := tileX1 iw th tx
  let x2 := tileX2 iw ow th tx
  let tileWidth : ℤ := (x2 : ℤ) - (x1 : ℤ)
  let tileStep : ℤ := round_up_to_8nZ tileWidth
  { offset := x1 + y1 * prop.step
    area := tileStep * tileHeight
    width := tileWidth
    height := tileHeight
    step := tileStep
    scanMode := if scanMode = SCAN_FULL then SCAN_FULL else (x1 + y1 + scanMode) % 2
    itemsCount := 0
    imageIndex := imgIndex
    objects := [] }

/-- Source add_tasks_for_image: append the num_tiles = tiles_hor * tiles_ver
tasks of the level at imgIndex to the task list. -/
def addTasksForImage (scanMode : ℕ) (imgs : List EpImageProp)
    (imgIndex ww wh R MTB : ℕ) (taskBuf : List EpTaskItem) : List EpTaskItem :=
  let prop := imgs.getD imgIndex ⟨0, 0, 0, 0⟩
  let grid := tilesGrid prop.width prop.height ww wh R MTB
  (List.range (grid.1 * grid.2)).foldl
    (fun acc i => acc ++ [taskAtIndex scanMode prop imgIndex ww wh R MTB i]) taskBuf

/-- One iteration of the source process_results loop: decode the tile origin
of the task from its byte offset and the level stride, and append one
absolute rectangle per packed tile-local detection. -/
def processResultsStep (imagesProperties : List EpImageProp)
    (windowWidth windowHeight offsetX offsetY : ℕ)
    (acc : List EpRect × ℕ) (task : EpTaskItem) : List EpRect × ℕ :=
  let prop := imagesProperties.getD task.imageIndex ⟨0, 0, 0, 0⟩
  let tileX := task.offset % prop.step
  let tileY := task.offset / prop.step
  let scale := convert_image_index_to_scale task.imageIndex
  let objectWidth := (windowWidth : ℚ) * scale
  let objectHeight := (windowHeight : ℚ) * scale
  let grown := (List.range task.itemsCount).foldl
    (fun objs j =>
      let packed := task.objects.getD j 0
      let relX := packed % 65536
      let relY := packed / 65536
      objs ++ [⟨((tileX + relX : ℕ) : ℚ) * scale + (offsetX : ℚ),
        ((tileY + relY : ℕ) : ℚ) * scale + (offsetY : ℚ),
        objectWidth, objectHeight⟩])
    acc.1
  (grown, acc.2 + task.itemsCount)

/-- Source process_results: turn the tile-local packed detections carried by
the downloaded task list into absolute rectangles, returning the grown
rectangle list and the total detection count. -/
def processResults (objects : List EpRect) (tasks : List EpTaskItem)
    (imagesProperties : List EpImageProp) (windowWidth windowHeight : ℕ)
    (offsetX offsetY : ℕ) : List EpRect × ℕ :=
  tasks.foldl
    (processResultsStep imagesProperties windowWidth windowHeight offsetX offsetY)
    (objects, 0)

/-! ## Pyramid builder -/

/-- The per-block pixel computation of source scale8765: reads the 8 x 8
source block at (blockX, blockY) and writes the corresponding 7 x 7, 6 x 6
and 5 x 5 output blocks with the fixed rational interpolation weights of the
autogenerated source code (transcribed mechanically, one write per source
assignment). -/
def scale8765Block (srcData : List ℕ) (srcStep offsetX offsetY : ℕ)
    (o7step o6step o5step : ℕ) (blockY blockX : ℕ)
    (bufs : List ℕ × List ℕ × List ℕ) : List ℕ × List ℕ × List ℕ :=
  let y8 := blockY * 8 + offsetY
  let y7 := blockY * 7
  let y6 := blockY * 6
  let y5 := blockY * 5
  let x8 := blockX * 8 + offsetX
  let x7 := blockX * 7
  let x6 := blockX * 6
  let x5 := blockX * 5
  let s : ℕ → ℕ → ℕ := fun r c => srcData.getD (srcStep * (y8 + r) + (x8 + c)) 0
  let d7 := bufs.1
  let d6 := bufs.2.1
  let d5 := bufs.2.2
  let d7 := d7.set (o7step * (y7 + 0) + (x7 + 0)) ((s 0 0 * 49 + s 0 1 * 7 + s 1 0 * 7 + s 1 1 + 32) / 64)
  let d7 := d7.set (o7step * (y7 + 0) + (x7 + 1)) ((s 0 1 * 42 + s 0 2 * 14 + s 1 1 * 6 + s 1 2 * 2 + 32) / 64)
  let d7 := d7.set (o7step * (y7 + 0) + (x7 + 2)) ((s 0 2 * 35 + s 0 3 * 21 + s 1 2 * 5 + s 1 3 * 3 + 32) / 64)
  let d7 := d7.set (o7step * (y7 + 0) + (x7 + 3)) ((s 0 3 * 28 + s 0 4 * 28 + s 1 3 * 4 + s 1 4 * 4 + 32) / 64)
  let d7 := d7.set (o7step * (y7 + 0) + (x7 + 4)) ((s 0 4 * 21 + s 0 5 * 35 + s 1 4 * 3 + s 1 5 * 5 + 32) / 64)
  let d7 := d7.set (o7step * (y7 + 0) + (x7 + 5)) ((s 0 5 * 14 + s 0 6 * 42 + s 1 5 * 2 + s 1 6 * 6 + 32) / 64)
  let d7 := d7.set (o7step * (y7 + 0) + (x7 + 6)) ((s 0 6 * 7 + s 0 7 * 49 + s 1 6 + s 1 7 * 7 + 32) / 64)
  let d7 := d7.set (o7step * (y7 + 1) + (x7 + 0)) ((s 1 0 * 42 + s 1 1 * 6 + s 2 0 * 14 + s 2 1 * 2 + 32) / 64)
  let d7 := d7.set (o7step * (y7 + 1) + (x7 + 1)) ((s 1 1 * 36 + s 1 2 * 12 + s 2 1 * 12 + s 2 2 * 4 + 32) / 64)
  let d7 := d7.set (o7step * (y7 + 1) + (x7 + 2)) ((s 1 2 * 30 + s 1 3 * 18 + s 2 2 * 10 + s 2 3 * 6 + 32) / 64)
  let d7 := d7.set (o7step * (y7 + 1) + (x7 + 3)) ((s 1 3 * 24 + s 1 4 * 24 + s 2 3 * 8 + s 2 4 * 8 + 32) / 64)
  let d7 := d7.set (o7step * (y7 + 1) + (x7 + 4)) ((s 1 4 * 18 + s 1 5 * 30 + s 2 4 * 6 + s 2 5 * 10 + 32) / 64)
  let d7 := d7.set (o7step * (y7 + 1) + (x7 + 5)) ((s 1 5 * 12 + s 1 6 * 36 + s 2 5 * 4 + s 2 6 * 12 + 32) / 64)
  let d7 := d7.set (o7step * (y7 + 1) + (x7 + 6)) ((s 1 6 * 6 + s 1 7 * 42 + s 2 6 * 2 + s 2 7 * 14 + 32) / 64)
  let d7 := d7.set (o7step * (y7 + 2) + (x7 + 0)) ((s 2 0 * 35 + s 2 1 * 5 + s 3 0 * 21 + s 3 1 * 3 + 32) / 64)
  let d7 := d7.set (o7step * (y7 + 2) + (x7 + 1)) ((s 2 1 * 30 + s 2 2 * 10 + s 3 1 * 18 + s 3 2 * 6 + 32) / 64)
  let d7 := d7.set (o7step * (y7 + 2) + (x7 + 2)) ((s 2 2 * 25 + s 2 3 * 15 + s 3 2 * 15 + s 3 3 * 9 + 32) / 64)
  let d7 := d7.set (o7step * (y7 + 2) + (x7 + 3)) ((s 2 3 * 20 + s 2 4 * 20 + s 3 3 * 12 + s 3 4 * 12 + 32) / 64)
  let d7 := d7.set (o7step * (y7 + 2) + (x7 + 4)) ((s 2 4 * 15 + s 2 5 * 25 + s 3 4 * 9 + s 3 5 * 15 + 32) / 64)
  let d7 := d7.set (o7step * (y7 + 2) + (x7 + 5)) ((s 2 5 * 10 + s 2 6 * 30 + s 3 5 * 6 + s 3 6 * 18 + 32) / 64)
  let d7 := d7.set (o7step * (y7 + 2) + (x7 + 6)) ((s 2 6 * 5 + s 2 7 * 35 + s 3 6 * 3 + s 3 7 * 21 + 32) / 64)
  let d7 := d7.set (o7step * (y7 + 3) + (x7 + 0)) ((s 3 0 * 28 + s 3 1 * 4 + s 4 0 * 28 + s 4 1 * 4 + 32) / 64)
  let d7 := d7.set (o7step * (y7 + 3) + (x7 + 1)) ((s 3 1 * 24 + s 3 2 * 8 + s 4 1 * 24 + s 4 2 * 8 + 32) / 64)
  let d7 := d7.set (o7step * (y7 + 3) + (x7 + 2)) ((s 3 2 * 20 + s 3 3 * 12 + s 4 2 * 20 + s 4 3 * 12 + 32) / 64)
  let d7 := d7.set (o7step * (y7 + 3) + (x7 + 3)) ((s 3 3 * 16 + s 3 4 * 16 + s 4 3 * 16 + s 4 4 * 16 + 32) / 64)
  let d7 := d7.set (o7step * (y7 + 3) + (x7 + 4)) ((s 3 4 * 12 + s 3 5 * 20 + s 4 4 * 12 + s 4 5 * 20 + 32) / 64)
  let d7 := d7.set (o7step * (y7 + 3) + (x7 + 5)) ((s 3 5 * 8 + s 3 6 * 24 + s 4 5 * 8 + s 4 6 * 24 + 32) / 64)
  let d7 := d7.set (o7step * (y7 + 3) + (x7 + 6)) ((s 3 6 * 4 + s 3 7 * 28 + s 4 6 * 4 + s 4 7 * 28 + 32) / 64)
  let d7 := d7.set (o7step * (y7 + 4) + (x7 + 0)) ((s 4 0 * 21 + s 4 1 * 3 + s 5 0 * 35 + s 5 1 * 5 + 32) / 64)
  let d7 := d7.set (o7step * (y7 + 4) + (x7 + 1)) ((s 4 1 * 18 + s 4 2 * 6 + s 5 1 * 30 + s 5 2 * 10 + 32) / 64)
  let d7 := d7.set (o7step * (y7 + 4) + (x7 + 2)) ((s 4 2 * 15 + s 4 3 * 9 + s 5 2 * 25 + s 5 3 * 15 + 32) / 64)
  let d7 := d7.set (o7step * (y7 + 4) + (x7 + 3)) ((s 4 3 * 12 + s 4 4 * 12 + s 5 3 * 20 + s 5 4 * 20 + 32) / 64)
  let d7 := d7.set (o7step * (y7 + 4) + (x7 + 4)) ((s 4 4 * 9 + s 4 5 * 15 + s 5 4 * 15 + s 5 5 * 25 + 32) / 64)
  let d7 := d7.set (o7step * (y7 + 4) + (x7 + 5)) ((s 4 5 * 6 + s 4 6 * 18 + s 5 5 * 10 + s 5 6 * 30 + 32) / 64)
  let d7 := d7.set (o7step * (y7 + 4) + (x7 + 6)) ((s 4 6 * 3 + s 4 7 * 21 + s 5 6 * 5 + s 5 7 * 35 + 32) / 64)
  let d7 := d7.set (o7step * (y7 + 5) + (x7 + 0)) ((s 5 0 * 14 + s 5 1 * 2 + s 6 0 * 42 + s 6 1 * 6 + 32) / 64)
  let d7 := d7.set (o7step * (y7 + 5) + (x7 + 1)) ((s 5 1 * 12 + s 5 2 * 4 + s 6 1 * 36 + s 6 2 * 12 + 32) / 64)
  let d7 := d7.set (o7step * (y7 + 5) + (x7 + 2)) ((s 5 2 * 10 + s 5 3 * 6 + s 6 2 * 30 + s 6 3 * 18 + 32) / 64)
  let d7 := d7.set (o7step * (y7 + 5) + (x7 + 3)) ((s 5 3 * 8 + s 5 4 * 8 + s 6 3 * 24 + s 6 4 * 24 + 32) / 64)
  let d7 := d7.set (o7step * (y7 + 5) + (x7 + 4)) ((s 5 4 * 6 + s 5 5 * 10 + s 6 4 * 18 + s 6 5 * 30 + 32) / 64)
  let d7 := d7.set (o7step * (y7 + 5) + (x7 + 5)) ((s 5 5 * 4 + s 5 6 * 12 + s 6 5 * 12 + s 6 6 * 36 + 32) / 64)
  let d7 := d7.set (o7step * (y7 + 5) + (x7 + 6)) ((s 5 6 * 2 + s 5 7 * 14 + s 6 6 * 6 + s 6 7 * 42 + 32) / 64)
  let d7 := d7.set (o7step * (y7 + 6) + (x7 + 0)) ((s 6 0 * 7 + s 6 1 + s 7 0 * 49 + s 7 1 * 7 + 32) / 64)
  let d7 := d7.set (o7step * (y7 + 6) + (x7 + 1)) ((s 6 1 * 6 + s 6 2 * 2 + s 7 1 * 42 + s 7 2 * 14 + 32) / 64)
  let d7 := d7.set (o7step * (y7 + 6) + (x7 + 2)) ((s 6 2 * 5 + s 6 3 * 3 + s 7 2 * 35 + s 7 3 * 21 + 32) / 64)
  let d7 := d7.set (o7step * (y7 + 6) + (x7 + 3)) ((s 6 3 * 4 + s 6 4 * 4 + s 7 3 * 28 + s 7 4 * 28 + 32) / 64)
  let d7 := d7.set (o7step * (y7 + 6) + (x7 + 4)) ((s 6 4 * 3 + s 6 5 * 5 + s 7 4 * 21 + s 7 5 * 35 + 32) / 64)
  let d7 := d7.set (o7step * (y7 + 6) + (x7 + 5)) ((s 6 5 * 2 + s 6 6 * 6 + s 7 5 * 14 + s 7 6 * 42 + 32) / 64)
  let d7 := d7.set (o7step * (y7 + 6) + (x7 + 6)) ((s 6 6 + s 6 7 * 7 + s 7 6 * 7 + s 7 7 * 49 + 32) / 64)
  let d6 := d6.set (o6step * (y6 + 0) + (x6 + 0)) ((s 0 0 * 9 + s 0 1 * 3 + s 1 0 * 3 + s 1 1 + 8) / 16)
  let d6 := d6.set (o6step * (y6 + 0) + (x6 + 1)) ((s 0 1 * 6 + s 0 2 * 6 + s 1 1 * 2 + s 1 2 * 2 + 8) / 16)
  let d6 := d6.set (o6step * (y6 + 0) + (x6 + 2)) ((s 0 2 * 3 + s 0 3 * 9 + s 1 2 + s 1 3 * 3 + 8) / 16)
  let d6 := d6.set (o6step * (y6 + 0) + (x6 + 3)) ((s 0 4 * 9 + s 0 5 * 3 + s 1 4 * 3 + s 1 5 + 8) / 16)
  let d6 := d6.set (o6step * (y6 + 0) + (x6 + 4)) ((s 0 5 * 6 + s 0 6 * 6 + s 1 5 * 2 + s 1 6 * 2 + 8) / 16)
  let d6 := d6.set (o6step * (y6 + 0) + (x6 + 5)) ((s 0 6 * 3 + s 0 7 * 9 + s 1 6 + s 1 7 * 3 + 8) / 16)
  let d6 := d6.set (o6step * (y6 + 1) + (x6 + 0)) ((s 1 0 * 6 + s 1 1 * 2 + s 2 0 * 6 + s 2 1 * 2 + 8) / 16)
  let d6 := d6.set (o6step * (y6 + 1) + (x6 + 1)) ((s 1 1 * 4 + s 1 2 * 4 + s 2 1 * 4 + s 2 2 * 4 + 8) / 16)
  let d6 := d6.set (o6step * (y6 + 1) + (x6 + 2)) ((s 1 2 * 2 + s 1 3 * 6 + s 2 2 * 2 + s 2 3 * 6 + 8) / 16)
  let d6 := d6.set (o6step * (y6 + 1) + (x6 + 3)) ((s 1 4 * 6 + s 1 5 * 2 + s 2 4 * 6 + s 2 5 * 2 + 8) / 16)
  let d6 := d6.set (o6step * (y6 + 1) + (x6 + 4)) ((s 1 5 * 4 + s 1 6 * 4 + s 2 5 * 4 + s 2 6 * 4 + 8) / 16)
  let d6 := d6.set (o6step * (y6 + 1) + (x6 + 5)) ((s 1 6 * 2 + s 1 7 * 6 + s 2 6 * 2 + s 2 7 * 6 + 8) / 16)
  let d6 := d6.set (o6step * (y6 + 2) + (x6 + 0)) ((s 2 0 * 3 + s 2 1 + s 3 0 * 9 + s 3 1 * 3 + 8) / 16)
  let d6 := d6.set (o6step * (y6 + 2) + (x6 + 1)) ((s 2 1 * 2 + s 2 2 * 2 + s 3 1 * 6 + s 3 2 * 6 + 8) / 16)
  let d6 := d6.set (o6step * (y6 + 2) + (x6 + 2)) ((s 2 2 + s 2 3 * 3 + s 3 2 * 3 + s 3 3 * 9 + 8) / 16)
  let d6 := d6.set (o6step * (y6 + 2) + (x6 + 3)) ((s 2 4 * 3 + s 2 5 + s 3 4 * 9 + s 3 5 * 3 + 8) / 16)
  let d6 := d6.set (o6step * (y6 + 2) + (x6 + 4)) ((s 2 5 * 2 + s 2 6 * 2 + s 3 5 * 6 + s 3 6 * 6 + 8) / 16)
  let d6 := d6.set (o6step * (y6 + 2) + (x6 + 5)) ((s 2 6 + s 2 7 * 3 + s 3 6 * 3 + s 3 7 * 9 + 8) / 16)
  let d6 := d6.set (o6step * (y6 + 3) + (x6 + 0)) ((s 4 0 * 9 + s 4 1 * 3 + s 5 0 * 3 + s 5 1 + 8) / 16)
  let d6 := d6.set (o6step * (y6 + 3) + (x6 + 1)) ((s 4 1 * 6 + s 4 2 * 6 + s 5 1 * 2 + s 5 2 * 2 + 8) / 16)
  let d6 := d6.set (o6step * (y6 + 3) + (x6 + 2)) ((s 4 2 * 3 + s 4 3 * 9 + s 5 2 + s 5 3 * 3 + 8) / 16)
  let d6 := d6.set (o6step * (y6 + 3) + (x6 + 3)) ((s 4 4 * 9 + s 4 5 * 3 + s 5 4 * 3 + s 5 5 + 8) / 16)
  let d6 := d6.set (o6step * (y6 + 3) + (x6 + 4)) ((s 4 5 * 6 + s 4 6 * 6 + s 5 5 * 2 + s 5 6 * 2 + 8) / 16)
  let d6 := d6.set (o6step * (y6 + 3) + (x6 + 5)) ((s 4 6 * 3 + s 4 7 * 9 + s 5 6 + s 5 7 * 3 + 8) / 16)
  let d6 := d6.set (o6step * (y6 + 4) + (x6 + 0)) ((s 5 0 * 6 + s 5 1 * 2 + s 6 0 * 6 + s 6 1 * 2 + 8) / 16)
  let d6 := d6.set (o6step * (y6 + 4) + (x6 + 1)) ((s 5 1 * 4 + s 5 2 * 4 + s 6 1 * 4 + s 6 2 * 4 + 8) / 16)
  let d6 := d6.set (o6step * (y6 + 4) + (x6 + 2)) ((s 5 2 * 2 + s 5 3 * 6 + s 6 2 * 2 + s 6 3 * 6 + 8) / 16)
  let d6 := d6.set (o6step * (y6 + 4) + (x6 + 3)) ((s 5 4 * 6 + s 5 5 * 2 + s 6 4 * 6 + s 6 5 * 2 + 8) / 16)
  let d6 := d6.set (o6step * (y6 + 4) + (x6 + 4)) ((s 5 5 * 4 + s 5 6 * 4 + s 6 5 * 4 + s 6 6 * 4 + 8) / 16)
  let d6 := d6.set (o6step * (y6 + 4) + (x6 + 5)) ((s 5 6 * 2 + s 5 7 * 6 + s 6 6 * 2 + s 6 7 * 6 + 8) / 16)
  let d6 := d6.set (o6step * (y6 + 5) + (x6 + 0)) ((s 6 0 * 3 + s 6 1 + s 7 0 * 9 + s 7 1 * 3 + 8) / 16)
  let d6 := d6.set (o6step * (y6 + 5) + (x6 + 1)) ((s 6 1 * 2 + s 6 2 * 2 + s 7 1 * 6 + s 7 2 * 6 + 8) / 16)
  let d6 := d6.set (o6step * (y6 + 5) + (x6 + 2)) ((s 6 2 + s 6 3 * 3 + s 7 2 * 3 + s 7 3 * 9 + 8) / 16)
  let d6 := d6.set (o6step * (y6 + 5) + (x6 + 3)) ((s 6 4 * 3 + s 6 5 + s 7 4 * 9 + s 7 5 * 3 + 8) / 16)
  let d6 := d6.set (o6step * (y6 + 5) + (x6 + 4)) ((s 6 5 * 2 + s 6 6 * 2 + s 7 5 * 6 + s 7 6 * 6 + 8) / 16)
  let d6 := d6.set (o6step * (y6 + 5) + (x6 + 5)) ((s 6 6 + s 6 7 * 3 + s 7 6 * 3 + s 7 7 * 9 + 8) / 16)
  let d5 := d5.set (o5step * (y5 + 0) + (x5 + 0)) ((s 0 0 * 25 + s 0 1 * 15 + s 1 0 * 15 + s 1 1 * 9 + 32) / 64)
  let d5 := d5.set (o5step * (y5 + 0) + (x5 + 1)) ((s 0 1 * 10 + s 0 2 * 25 + s 0 3 * 5 + s 1 1 * 6 + s 1 2 * 15 + s 1 3 * 3 + 32) / 64)
  let d5 := d5.set (o5step * (y5 + 0) + (x5 + 2)) ((s 0 3 * 20 + s 0 4 * 20 + s 1 3 * 12 + s 1 4 * 12 + 32) / 64)
  let d5 := d5.set (o5step * (y5 + 0) + (x5 + 3)) ((s 0 4 * 5 + s 0 5 * 25 + s 0 6 * 10 + s 1 4 * 3 + s 1 5 * 15 + s 1 6 * 6 + 32) / 64)
  let d5 := d5.set (o5step * (y5 + 0) + (x5 + 4)) ((s 0 6 * 15 + s 0 7 * 25 + s 1 6 * 9 + s 1 7 * 15 + 32) / 64)
  let d5 := d5.set (o5step * (y5 + 1) + (x5 + 0)) ((s 1 0 * 10 + s 1 1 * 6 + s 2 0 * 25 + s 2 1 * 15 + s 3 0 * 5 + s 3 1 * 3 + 32) / 64)
  let d5 := d5.set (o5step * (y5 + 1) + (x5 + 1)) ((s 1 1 * 4 + s 1 2 * 10 + s 1 3 * 2 + s 2 1 * 10 + s 2 2 * 25 + s 2 3 * 5 + s 3 1 * 2 + s 3 2 * 5 + s 3 3 + 32) / 64)
  let d5 := d5.set (o5step * (y5 + 1) + (x5 + 2)) ((s 1 3 * 8 + s 1 4 * 8 + s 2 3 * 20 + s 2 4 * 20 + s 3 3 * 4 + s 3 4 * 4 + 32) / 64)
  let d5 := d5.set (o5step * (y5 + 1) + (x5 + 3)) ((s 1 4 * 2 + s 1 5 * 10 + s 1 6 * 4 + s 2 4 * 5 + s 2 5 * 25 + s 2 6 * 10 + s 3 4 + s 3 5 * 5 + s 3 6 * 2 + 32) / 64)
  let d5 := d5.set (o5step * (y5 + 1) + (x5 + 4)) ((s 1 6 * 6 + s 1 7 * 10 + s 2 6 * 15 + s 2 7 * 25 + s 3 6 * 3 + s 3 7 * 5 + 32) / 64)
  let d5 := d5.set (o5step * (y5 + 2) + (x5 + 0)) ((s 3 0 * 20 + s 3 1 * 12 + s 4 0 * 20 + s 4 1 * 12 + 32) / 64)
  let d5 := d5.set (o5step * (y5 + 2) + (x5 + 1)) ((s 3 1 * 8 + s 3 2 * 20 + s 3 3 * 4 + s 4 1 * 8 + s 4 2 * 20 + s 4 3 * 4 + 32) / 64)
  let d5 := d5.set (o5step * (y5 + 2) + (x5 + 2)) ((s 3 3 * 16 + s 3 4 * 16 + s 4 3 * 16 + s 4 4 * 16 + 32) / 64)
  let d5 := d5.set (o5step * (y5 + 2) + (x5 + 3)) ((s 3 4 * 4 + s 3 5 * 20 + s 3 6 * 8 + s 4 4 * 4 + s 4 5 * 20 + s 4 6 * 8 + 32) / 64)
  let d5 := d5.set (o5step * (y5 + 2) + (x5 + 4)) ((s 3 6 * 12 + s 3 7 * 20 + s 4 6 * 12 + s 4 7 * 20 + 32) / 64)
  let d5 := d5.set (o5step * (y5 + 3) + (x5 + 0)) ((s 4 0 * 5 + s 4 1 * 3 + s 5 0 * 25 + s 5 1 * 15 + s 6 0 * 10 + s 6 1 * 6 + 32) / 64)
  let d5 := d5.set (o5step * (y5 + 3) + (x5 + 1)) ((s 4 1 * 2 + s 4 2 * 5 + s 4 3 + s 5 1 * 10 + s 5 2 * 25 + s 5 3 * 5 + s 6 1 * 4 + s 6 2 * 10 + s 6 3 * 2 + 32) / 64)
  let d5 := d5.set (o5step * (y5 + 3) + (x5 + 2)) ((s 4 3 * 4 + s 4 4 * 4 + s 5 3 * 20 + s 5 4 * 20 + s 6 3 * 8 + s 6 4 * 8 + 32) / 64)
  let d5 := d5.set (o5step * (y5 + 3) + (x5 + 3)) ((s 4 4 + s 4 5 * 5 + s 4 6 * 2 + s 5 4 * 5 + s 5 5 * 25 + s 5 6 * 10 + s 6 4 * 2 + s 6 5 * 10 + s 6 6 * 4 + 32) / 64)
  let d5 := d5.set (o5step * (y5 + 3) + (x5 + 4)) ((s 4 6 * 3 + s 4 7 * 5 + s 5 6 * 15 + s 5 7 * 25 + s 6 6 * 6 + s 6 7 * 10 + 32) / 64)
  let d5 := d5.set (o5step * (y5 + 4) + (x5 + 0)) ((s 6 0 * 15 + s 6 1 * 9 + s 7 0 * 25 + s 7 1 * 15 + 32) / 64)
  let d5 := d5.set (o5step * (y5 + 4) + (x5 + 1)) ((s 6 1 * 6 + s 6 2 * 15 + s 6 3 * 3 + s 7 1 * 10 + s 7 2 * 25 + s 7 3 * 5 + 32) / 64)
  let d5 := d5.set (o5step * (y5 + 4) + (x5 + 2)) ((s 6 3 * 12 + s 6 4 * 12 + s 7 3 * 20 + s 7 4 * 20 + 32) / 64)
  let d5 := d5.set (o5step * (y5 + 4) + (x5 + 3)) ((s 6 4 * 3 + s 6 5 * 15 + s 6 6 * 6 + s 7 4 * 5 + s 7 5 * 25 + s 7 6 * 10 + 32) / 64)
  let d5 := d5.set (o5step * (y5 + 4) + (x5 + 4)) ((s 6 6 * 9 + s 6 7 * 15 + s 7 6 * 15 + s 7 7 * 25 + 32) / 64)
  (d7, d6, d5)

/-- Source scale8765: scale an 8x-sized image into simultaneous 7x, 6x and 5x
images, discarding the border pixels of a source not divisible into 8 x 8
blocks symmetrically and reporting the discarded margins.  Returns the three
updated output images and (offs_x, offs_y). -/
def scale8765 (src8 out7 out6 out5 : EpImage) :
    EpImage × EpImage × EpImage × ℕ × ℕ :=
  let blocksWidth := src8.width / 8
  let blocksHeight := src8.height / 8
  let offsetX := src8.width % 8 / 2
  let offsetY := src8.height % 8 / 2
  let bufs := (List.range blocksHeight).foldl
    (fun b blockY => (List.range blocksWidth).foldl
      (fun b blockX =>
        scale8765Block src8.data src8.step offsetX offsetY
          out7.step out6.step out5.step blockY blockX b)
      b)
    (out7.data, out6.data, out5.data)
  ({ out7 with width := blocksWidth * 7, height := blocksHeight * 7, data := bufs.1 },
   { out6 with width := blocksWidth * 6, height := blocksHeight * 6, data := bufs.2.1 },
   { out5 with width := blocksWidth * 5, height := blocksHeight * 5, data := bufs.2.2 },
   offsetX, offsetY)

/-- Source scale21: halve an image with a 2 x 2 box average.  The source
allows destination aliasing the source buffer; it then only reads cells not
yet written, so the functional reading from the original source data gives
the same result for both call patterns of the repository. -/
def scale21 (src out : EpImage) : EpImage :=
  let outWidth := src.width / 2
  let outHeight := src.height / 2
  let data := (List.range outHeight).foldl
    (fun d y =>
      (List.range outWidth).foldl
        (fun d x =>
          d.set (out.step * y + x)
            ((src.data.getD (src.step * (2 * y) + 2 * x) 0 +
              src.data.getD (src.step * (2 * y) + 2 * x + 1) 0 +
              src.data.getD (src.step * (2 * y + 1) + 2 * x) 0 +
              src.data.getD (src.step * (2 * y + 1) + 2 * x + 1) 0 + 2) / 4))
        d)
    out.data
  { out with width := outWidth, height := outHeight, data := data }

/-- Source scale21_realloc: scale into a freshly created buffer and replace
the image. -/
def scale21Realloc (src : EpImage) : EpImage :=
  scale21 src (epImageCreate (src.width / 2) (src.height / 2))

/-! ## Multi-scale drivers -/

/-- The while loop of ep_detect_multi_scale_host: scan the four derived
images at image_index .. image_index + 3, halve all four and continue at
image_index + 4 until one image falls below the classifier window.  The
recursion terminates because halving shrinks the width; the extra guard
window_width = 0 only excludes the case in which the source loop itself
never terminates (a window that small is rejected by the classifier
validation of every caller). -/
def hostLoop (classifier : EpCascadeClassifier) (ww wh offsetX offsetY scanMode : ℕ)
    (imageIndex : ℕ) (i8 i7 i6 i5 : EpImage) (objects : List EpRect) : List EpRect :=
  if h : i8.width < ww ∨ i8.height < wh ∨ ww = 0 then objects
  else
    let o1 := detectSingleScaleHost i8 classifier objects
      (convert_image_index_to_scale imageIndex) offsetX offsetY scanMode
    if i7.width < ww ∨ i7.height < wh then o1
    else
      let o2 := detectSingleScaleHost i7 classifier o1
        (convert_image_index_to_scale (imageIndex + 1)) offsetX offsetY scanMode
      if i6.width < ww ∨ i6.height < wh then o2
      else
        let o3 := detectSingleScaleHost i6 classifier o2
          (convert_image_index_to_scale (imageIndex + 2)) offsetX offsetY scanMode
        if i5.width < ww ∨ i5.height < wh then o3
        else
          let o4 := detectSingleScaleHost i5 classifier o3
            (convert_image_index_to_scale (imageIndex + 3)) offsetX offsetY scanMode
          hostLoop classifier ww wh offsetX offsetY scanMode (imageIndex + 4)
            (scale21 i8 i8) (scale21 i7 i7) (scale21 i6 i6) (scale21 i5 i5) o4
termination_by i8.width
decreasing_by
  push_neg at h
  show i8.width / 2 < i8.width
  omega

/-- Source ep_detect_multi_scale_host.  The returned triple carries the error
code, the state of the caller image after the call (the source empties it as
soon as the pyramid is set up) and the grown rectangle list. -/
def epDetectMultiScaleHost (image : EpImage) (classifier : EpCascadeClassifier)
    (objects : List EpRect) (scanMode : ℕ) : EpErrorCode × EpImage × List EpRect :=
  if epClassifierCheck classifier ≠ 0 then (.errArgument, image, objects)
  else if epImageIsEmpty image then (.errArgument, image, objects)
  else
    let windowWidth := readU32 classifier 4
    let windowHeight := readU32 classifier 8
    if image.width < windowWidth ∨ image.height < windowHeight then
      (.errSuccess, image, objects)
    else
      let blocksX := image.width / 8
      let blocksY := image.height / 8
      let img8 := image
      let img7 := epImageCreate (blocksX * 7) (blocksY * 7)
      let img6 := epImageCreate (blocksX * 6) (blocksY * 6)
      let img5 := epImageCreate (blocksX * 5) (blocksY * 5)
      let scaled := scale8765 img8 img7 img6 img5
      (.errSuccess, epImageCreateEmpty,
        hostLoop classifier windowWidth windowHeight scaled.2.2.2.1 scaled.2.2.2.2
          scanMode 0 img8 scaled.1 scaled.2.1 scaled.2.2.1 objects)

/-- Source EpImgList: the list of pyramid level descriptors together with the
running data offset used when packing levels into the shared region. -/
structure EpImgList where
  props : List EpImageProp
  curOffset : ℕ
deriving DecidableEq, Repr

/-- Source ep_img_list_create_empty. -/
def epImgListCreateEmpty (startOffset : ℕ) : EpImgList := ⟨[], startOffset⟩

/-- Source ep_img_list_add: append a level descriptor at the current offset
and advance the offset by step * height. -/
def epImgListAdd (l : EpImgList) (step width height : ℕ) : EpImgList :=
  ⟨l.props ++ [⟨l.curOffset, step, width, height⟩], l.curOffset + step * height⟩

/-- The upload loop of ep_detect_multi_scale_device: register the four
derived images while at least window rather than the classifier window,
halving in place between rounds.  The raw pixel transfers into the shared
region (e_write) have no observable effect on the host state modelled here
and are omitted; the descriptor bookkeeping is kept in full.  The same
window_width = 0 termination guard as in hostLoop applies. -/
def deviceUploadLoop (ww wh : ℕ) (i8 i7 i6 i5 : EpImage) (imgs : EpImgList) : EpImgList :=
  if h : i8.width < ww ∨ i8.height < wh ∨ ww = 0 then imgs
  else
    let l1 := epImgListAdd imgs i8.step i8.width i8.height
    if i7.width < ww ∨ i7.height < wh then l1
    else
      let l2 := epImgListAdd l1 i7.step i7.width i7.height
      if i6.width < ww ∨ i6.height < wh then l2
      else
        let l3 := epImgListAdd l2 i6.step i6.width i6.height
        if i5.width < ww ∨ i5.height < wh then l3
        else
          let l4 := epImgListAdd l3 i5.step i5.width i5.height
          deviceUploadLoop ww wh (scale21Realloc i8) (scale21Realloc i7)
            (scale21Realloc i6) (scale21Realloc i5) l4
termination_by i8.width
decreasing_by
  push_neg at h
  show i8.width / 2 < i8.width
  omega

/-- Source ep_detect_multi_scale_device.  The coprocessor is opaque: per the
offload contract it consumes the uploaded task list and returns it with
detection counts and packed coordinates filled in, modelled by the deviceRun
parameter.  Device initialisation, e_write and e_read transfers and the
polling loop on the control block have no further effect on the host values
modelled here.  RECOMMENDED_TILE_SIZE and MAX_TILE_BYTES are the build
constants R and MTB. -/
def epDetectMultiScaleDevice (image : EpImage) (classifier : EpCascadeClassifier)
    (objects : List EpRect) (scanMode : ℕ) (R MTB : ℕ)
    (deviceRun : List EpTaskItem → List EpTaskItem) :
    EpErrorCode × EpImage × List EpRect :=
  if epClassifierCheck classifier ≠ 0 then (.errArgument, image, objects)
  else if epImageIsEmpty image then (.errArgument, image, objects)
  else
    let windowWidth := readU32 classifier 4
    let windowHeight := readU32 classifier 8
    if image.width < windowWidth ∨ image.height < windowHeight then
      (.errSuccess, image, objects)
    else
      let blocksX := image.width / 8
      let blocksY := image.height / 8
      let img8 := image
      let img7 := epImageCreate (blocksX * 7) (blocksY * 7)
      let img6 := epImageCreate (blocksX * 6) (blocksY * 6)
      let img5 := epImageCreate (blocksX * 5) (blocksY * 5)
      let scaled := scale8765 img8 img7 img6 img5
      let imgs := deviceUploadLoop windowWidth windowHeight
        img8 scaled.1 scaled.2.1 scaled.2.2.1 (epImgListCreateEmpty 0)
      let tasks := (List.range imgs.props.length).foldl
        (fun acc i => addTasksForImage scanMode imgs.props i windowWidth windowHeight R MTB acc)
        []
      let finished := deviceRun tasks
      let processed := processResults objects finished imgs.props
        windowWidth windowHeight scaled.2.2.2.1 scaled.2.2.2.2
      (.errSuccess, epImageCreateEmpty, processed.1)

/-! ## Concrete inputs used by counterexamples and witnesses -/

/-- An image file with a valid header announcing a 1 x 1 image but an empty
pixel payload: the truncated-payload input of claim C8. -/
def truncatedImageFile : EpImageFile := ⟨FILE_ID_IMAGE, 1, 1, []⟩

/-- A minimal structurally valid classifier blob: Meta (window 3 x 3),
one Decision with zero score, one Stage with threshold 0, Final. -/
def goodBlob : EpCascadeClassifier :=
  [3, 0, 0, 0, 3, 0, 0, 0, 3, 0, 0, 0] ++
  ([0, 0, 0, 0] ++ [3, 3, 0, 0] ++ List.replicate 32 0 ++ [0, 0, 0, 0]) ++
  ([1, 0, 0, 0] ++ [0, 0, 0, 0]) ++
  [2, 0, 0, 0]

/-- A 112-byte blob passing every structural check of ep_classifier_check
(Meta with window 3 x 3 first, Decision second, Stage second-to-last at
offset 100, Final last at offset 108) whose middle bytes misalign the
interpreter walk: after the Decision at offset 12 the interpreter sees a
Stage at 56, a Decision at 64 spanning offsets 64..107, and then reads the
Final tag at 108 as a Stage, fetching a threshold beyond the blob end. -/
def badBlob : EpCascadeClassifier :=
  [3, 0, 0, 0, 3, 0, 0, 0, 3, 0, 0, 0] ++
  ([0, 0, 0, 0] ++ [3, 3, 0, 0] ++ List.replicate 32 0 ++ [0, 0, 0, 0]) ++
  ([1, 0, 0, 0] ++ [0, 0, 0, 0]) ++
  ([0, 0, 0, 0] ++ [3, 3, 0, 0] ++ List.replicate 28 0 ++ [1, 0, 0, 0] ++ [0, 0, 0, 0]) ++
  [2, 0, 0, 0]

/-- A fallback task used only as the List.getD default of closed statements. -/
def fallbackTask : EpTaskItem := ⟨0, 0, 0, 0, 0, 0, 0, 0, []⟩

/-- The pyramid level descriptor of the claim C2 failing input: a 185 x 79
level (step 192). -/
def c2LevelProp : EpImageProp := ⟨0, 192, 185, 79⟩

/-- The task list generated for the C2 failing input with a 24 x 24 window,
RECOMMENDED_TILE_SIZE 64 and MAX_TILE_BYTES 4096. -/
def c2Tasks : List EpTaskItem :=
  addTasksForImage SCAN_FULL [c2LevelProp] 0 24 24 64 4096 []

/-- The pyramid level descriptor of the claim C3 counterexample: a 35 x 9
level (step 40). -/
def c3LevelProp : EpImageProp := ⟨0, 40, 35, 9⟩

/-- The task list generated for the C3 counterexample with a 29 x 3 window,
RECOMMENDED_TILE_SIZE 32 and MAX_TILE_BYTES 4096. -/
def c3Tasks : List EpTaskItem :=
  addTasksForImage SCAN_FULL [c3LevelProp] 0 29 3 32 4096 []

/-- A 1 x 2 image whose width is not a multiple of 8: pixel (0,0) is 5 and
pixel (0,1) is 7, stored at stride 8. -/
def imgW1H2 : EpImage := ⟨[5, 0, 0, 0, 0, 0, 0, 0, 7, 0, 0, 0, 0, 0, 0, 0], 1, 2, 8⟩

/-! ## Claim C8 -/

/-- C8: the claim states that a truncated pixel payload makes ep_image_load
return an empty image and report ERR_FILE_CONTENTS.  The empty image is
returned, but the missing return statement in the truncated-read branch lets
the epilogue overwrite the error code, so the caller observes ERR_SUCCESS,
contradicting the documented error contract of the function. -/
theorem c8_truncated_payload_reports_success :
    epImageLoad truncatedImageFile = (epImageCreateEmpty, EpErrorCode.errSuccess) ∧
      (epImageLoad truncatedImageFile).2 ≠ EpErrorCode.errFileContents := by
  decide

/-! ## Claim C5 -/

/-- C5: the claim states that every blob accepted by ep_classifier_check runs
the classify interpreter to a reject or Final exit without reading past the
blob.  The structural validation only inspects the two leading and two
trailing nodes (the source marks full checking as a ToDo), so badBlob passes
validation yet the interpreter walk reads a Stage threshold beyond the end
of the blob. -/
theorem c5_check_passes_but_classify_reads_out_of_bounds :
    epClassifierCheck badBlob = 0 ∧
      classify (fun _ => 0) 0 8 badBlob sizeofNodeMeta 10 = ClassifyOut.oob := by
  decide

/-! ## Claim C2 -/

/-- C2: the claim states that every generated task satisfies
step * height less than or equal to MAX_TILE_BYTES, the property asserted at
the task-append site.  For the 185 x 79 level with a 24 x 24 window,
RECOMMENDED_TILE_SIZE 64 and MAX_TILE_BYTES 4096 the final tile of the row
is stretched to the image edge and its step 56 times height 79 is 4424,
exceeding the budget: the assert fires. -/
theorem c2_tile_budget_assert_fires :
    (c2Tasks.getD 6 fallbackTask).step = 56 ∧
      (c2Tasks.getD 6 fallbackTask).height = 79 ∧
      (4096 : ℤ) < (c2Tasks.getD 6 fallbackTask).step * ((c2Tasks.getD 6 fallbackTask).height : ℤ) ∧
      c2Tasks.length = 7 := by
  decide

/-! ## Claim C9 -/

/-- C9: the claim states that ep_detect_multi_scale_host returns ERR_ARGUMENT
for an unsupported scan mode.  The source never validates the scan mode: with
the valid classifier goodBlob, a valid nonempty 2 x 2 image and the
unsupported scan mode 7 the call returns ERR_SUCCESS, contradicting the
documented contract that an unknown scan_mode yields ERR_ARGUMENT. -/
theorem c9_unsupported_scan_mode_not_rejected :
    (epDetectMultiScaleHost (epImageCreate 2 2) goodBlob [] 7).1 = EpErrorCode.errSuccess ∧
      (epDetectMultiScaleHost (epImageCreate 2 2) goodBlob [] 7).1 ≠ EpErrorCode.errArgument := by
  constructor
  · rfl
  · decide

/-! ## Claim C4 -/

/-- Membership in the scanned position set of detect_single_scale_host. -/
lemma mem_scannedPositions (m pw ph x y : ℕ) :
    (x, y) ∈ scannedPositions m pw ph ↔
      y < ph ∧ x < pw ∧ xStart m y ≤ x ∧ (x - xStart m y) % xStep m = 0 := by
  simp only [scannedPositions, scannedXs, List.mem_flatMap, List.mem_map,
    List.mem_filter, List.mem_range, decide_eq_true_eq]
  constructor
  · rintro ⟨y', hy', ⟨x', ⟨hx', hcond⟩, hEq⟩⟩
    obtain ⟨rfl, rfl⟩ := Prod.mk.injEq .. |>.mp hEq
    exact ⟨hy', hx', hcond.1, hcond.2⟩
  · rintro ⟨hy, hx, h1, h2⟩
    exact ⟨y, hy, x, ⟨hx, h1, h2⟩, rfl⟩

/-- C4: the checkerboard scan modes partition the full scan: the even and odd
position sets of detect_single_scale_host are disjoint, and their union is
exactly the full-scan set, which consists of every valid window position
x below width + 1 - window_width and y below height + 1 - window_height. -/
theorem c4_checkerboard_modes_partition_full_scan (width height ww wh x y : ℕ) :
    (¬((x, y) ∈ scannedPositions SCAN_EVEN (width + 1 - ww) (height + 1 - wh) ∧
        (x, y) ∈ scannedPositions SCAN_ODD (width + 1 - ww) (height + 1 - wh))) ∧
    ((x, y) ∈ scannedPositions SCAN_FULL (width + 1 - ww) (height + 1 - wh) ↔
      ((x, y) ∈ scannedPositions SCAN_EVEN (width + 1 - ww) (height + 1 - wh) ∨
        (x, y) ∈ scannedPositions SCAN_ODD (width + 1 - ww) (height + 1 - wh))) ∧
    ((x, y) ∈ scannedPositions SCAN_FULL (width + 1 - ww) (height + 1 - wh) ↔
      x < width + 1 - ww ∧ y < height + 1 - wh) := by
  simp only [mem_scannedPositions, xStart, xStep, SCAN_EVEN, SCAN_ODD, SCAN_FULL]
  norm_num
  omega

/-! ## Claim C6 -/

/-- C6: ep_classifier_check returns 0 exactly for non-empty blobs satisfying
all structural invariants, and each distinct violation, tested in source
order, yields its own distinct nonzero code: 1 empty, 2 too small, 3 wrong
first tag, 4 undersized window, 5 wrong second tag, 6 wrong last tag, 7 wrong
second-to-last tag. -/
theorem c6_classifier_check_characterisation (c : EpCascadeClassifier) :
    (epClassifierCheck c = 0 ↔
      c ≠ [] ∧
      sizeofNodeMeta + sizeofNodeDecision + sizeofNodeStage + sizeofNodeFinal ≤ c.length ∧
      readS32 c 0 = NODE_META ∧
      (3 ≤ readS32 c 4 ∧ 3 ≤ readS32 c 8) ∧
      readS32 c sizeofNodeMeta = NODE_DECISION ∧
      readS32 c (c.length - sizeofNodeFinal) = NODE_FINAL ∧
      readS32 c (c.length - sizeofNodeFinal - sizeofNodeStage) = NODE_STAGE) ∧
    (epClassifierCheck c = 1 ↔ c = []) ∧
    (epClassifierCheck c = 2 ↔ c ≠ [] ∧
      c.length < sizeofNodeMeta + sizeofNodeDecision + sizeofNodeStage + sizeofNodeFinal) ∧
    (epClassifierCheck c = 3 ↔ c ≠ [] ∧
      sizeofNodeMeta + sizeofNodeDecision + sizeofNodeStage + sizeofNodeFinal ≤ c.length ∧
      readS32 c 0 ≠ NODE_META) ∧
    (epClassifierCheck c = 4 ↔ c ≠ [] ∧
      sizeofNodeMeta + sizeofNodeDecision + sizeofNodeStage + sizeofNodeFinal ≤ c.length ∧
      readS32 c 0 = NODE_META ∧
      ¬(3 ≤ readS32 c 4 ∧ 3 ≤ readS32 c 8)) ∧
    (epClassifierCheck c = 5 ↔ c ≠ [] ∧
      sizeofNodeMeta + sizeofNodeDecision + sizeofNodeStage + sizeofNodeFinal ≤ c.length ∧
      readS32 c 0 = NODE_META ∧
      (3 ≤ readS32 c 4 ∧ 3 ≤ readS32 c 8) ∧
      readS32 c sizeofNodeMeta ≠ NODE_DECISION) ∧
    (epClassifierCheck c = 6 ↔ c ≠ [] ∧
      sizeofNodeMeta + sizeofNodeDecision + sizeofNodeStage + sizeofNodeFinal ≤ c.length ∧
      readS32 c 0 = NODE_META ∧
      (3 ≤ readS32 c 4 ∧ 3 ≤ readS32 c 8) ∧
      readS32 c sizeofNodeMeta = NODE_DECISION ∧
      readS32 c (c.length - sizeofNodeFinal) ≠ NODE_FINAL) ∧
    (epClassifierCheck c = 7 ↔ c ≠ [] ∧
      sizeofNodeMeta + sizeofNodeDecision + sizeofNodeStage + sizeofNodeFinal ≤ c.length ∧
      readS32 c 0 = NODE_META ∧
      (3 ≤ readS32 c 4 ∧ 3 ≤ readS32 c 8) ∧
      readS32 c sizeofNodeMeta = NODE_DECISION ∧
      readS32 c (c.length - sizeofNodeFinal) = NODE_FINAL ∧
      readS32 c (c.length - sizeofNodeFinal - sizeofNodeStage) ≠ NODE_STAGE) := by
  unfold epClassifierCheck
  simp only [epClassifierIsEmpty, decide_eq_true_eq]
  split_ifs with h1 h2 h3 h4 h5 h6 h7 <;>
    refine ⟨?_, ?_, ?_, ?_, ?_, ?_, ?_, ?_⟩ <;>
    simp_all <;> omega

/-! ## Claim C10 -/

/-- C10: both multi-scale drivers consume the caller image exactly when the
call proceeds past argument validation with an image at least as large as the
classifier window: the returned image state is then the empty image.  On the
two early ERR_ARGUMENT returns and on the too-small ERR_SUCCESS return the
input image is returned unchanged.  The device driver behaves identically for
every coprocessor behaviour deviceRun and every budget constant. -/
theorem c10_detect_consumes_input_image (image : EpImage)
    (classifier : EpCascadeClassifier) (objects : List EpRect) (scanMode : ℕ) :
    (epClassifierCheck classifier ≠ 0 →
      epDetectMultiScaleHost image classifier objects scanMode =
        (.errArgument, image, objects)) ∧
    (epClassifierCheck classifier = 0 → epImageIsEmpty image = true →
      epDetectMultiScaleHost image classifier objects scanMode =
        (.errArgument, image, objects)) ∧
    (epClassifierCheck classifier = 0 → epImageIsEmpty image = false →
      (image.width < readU32 classifier 4 ∨ image.height < readU32 classifier 8) →
      (epDetectMultiScaleHost image classifier objects scanMode).1 = .errSuccess ∧
      (epDetectMultiScaleHost image classifier objects scanMode).2.1 = image) ∧
    (epClassifierCheck classifier = 0 → epImageIsEmpty image = false →
      ¬(image.width < readU32 classifier 4 ∨ image.height < readU32 classifier 8) →
      (epDetectMultiScaleHost image classifier objects scanMode).2.1 = epImageCreateEmpty) ∧
    (∀ (R MTB : ℕ) (deviceRun : List EpTaskItem → List EpTaskItem),
      (epClassifierCheck classifier ≠ 0 →
        epDetectMultiScaleDevice image classifier objects scanMode R MTB deviceRun =
          (.errArgument, image, objects)) ∧
      (epClassifierCheck classifier = 0 → epImageIsEmpty image = true →
        epDetectMultiScaleDevice image classifier objects scanMode R MTB deviceRun =
          (.errArgument, image, objects)) ∧
      (epClassifierCheck classifier = 0 → epImageIsEmpty image = false →
        (image.width < readU32 classifier 4 ∨ image.height < readU32 classifier 8) →
        (epDetectMultiScaleDevice image classifier objects scanMode R MTB deviceRun).1 =
          .errSuccess ∧
        (epDetectMultiScaleDevice image classifier objects scanMode R MTB deviceRun).2.1 =
          image) ∧
      (epClassifierCheck classifier = 0 → epImageIsEmpty image = false →
        ¬(image.width < readU32 classifier 4 ∨ image.height < readU32 classifier 8) →
        (epDetectMultiScaleDevice image classifier objects scanMode R MTB deviceRun).2.1 =
          epImageCreateEmpty)) := by
  refine ⟨?_, ?_, ?_, ?_, fun R MTB deviceRun => ⟨?_, ?_, ?_, ?_⟩⟩
  · intro h1
    simp only [epDetectMultiScaleHost]
    rw [if_pos h1]
  · intro h1 h2
    simp only [epDetectMultiScaleHost]
    rw [if_neg (by simp [h1]), if_pos h2]
  · intro h1 h2 h3
    simp only [epDetectMultiScaleHost]
    rw [if_neg (by simp [h1]), if_neg (by simp [h2]), if_pos h3]
    exact ⟨rfl, rfl⟩
  · intro h1 h2 h3
    simp only [epDetectMultiScaleHost]
    rw [if_neg (by simp [h1]), if_neg (by simp [h2]), if_neg h3]
  · intro h1
    simp only [epDetectMultiScaleDevice]
    rw [if_pos h1]
  · intro h1 h2
    simp only [epDetectMultiScaleDevice]
    rw [if_neg (by simp [h1]), if_pos h2]
  · intro h1 h2 h3
    simp only [epDetectMultiScaleDevice]
    rw [if_neg (by simp [h1]), if_neg (by simp [h2]), if_pos h3]
    exact ⟨rfl, rfl⟩
  · intro h1 h2 h3
    simp only [epDetectMultiScaleDevice]
    rw [if_neg (by simp [h1]), if_neg (by simp [h2]), if_neg h3]

/-- Witness for C10: an 8 x 8 image with the valid 3 x 3-window classifier
proceeds past validation in both drivers and the caller image comes back
empty. -/
theorem c10_detect_consumes_input_image_witness :
    (epDetectMultiScaleHost (epImageCreate 8 8) goodBlob [] 0).2.1 = epImageCreateEmpty ∧
    (epDetectMultiScaleDevice (epImageCreate 8 8) goodBlob [] 0 64 4096 id).2.1 =
      epImageCreateEmpty := by
  exact ⟨(c10_detect_consumes_input_image (epImageCreate 8 8) goodBlob [] 0).2.2.2.1
      (by decide) (by decide) (by decide),
    ((c10_detect_consumes_input_image (epImageCreate 8 8) goodBlob [] 0).2.2.2.2
        64 4096 id).2.2.2 (by decide) (by decide) (by decide)⟩

/-! ## Claim C1 -/

/-- The level-to-scale closed form exactly as the specification words it:
scale(i) = (8 shifted left by i / 4) / (8 - i % 4), written with an explicit
power of two. -/
def scaleSpec (i : ℕ) : ℚ := (8 * 2 ^ (i / 4) : ℚ) / ((8 : ℚ) - ((i % 4 : ℕ) : ℚ))

/-- The source scale function agrees with the closed form of the spec. -/
lemma convert_eq_scaleSpec (i : ℕ) : convert_image_index_to_scale i = scaleSpec i := by
  unfold convert_image_index_to_scale scaleSpec
  rw [Nat.shiftLeft_eq, Nat.cast_sub (by omega : i % 4 ≤ 8)]
  push_cast
  ring_nf

/-- The host multi-scale loop written with the closed form of the spec in
place of convert_image_index_to_scale; compared against hostLoop for C1. -/
def hostLoopSpec (classifier : EpCascadeClassifier) (ww wh offsetX offsetY scanMode : ℕ)
    (imageIndex : ℕ) (i8 i7 i6 i5 : EpImage) (objects : List EpRect) : List EpRect :=
  if h : i8.width < ww ∨ i8.height < wh ∨ ww = 0 then objects
  else
    let o1 := detectSingleScaleHost i8 classifier objects
      (scaleSpec imageIndex) offsetX offsetY scanMode
    if i7.width < ww ∨ i7.height < wh then o1
    else
      let o2 := detectSingleScaleHost i7 classifier o1
        (scaleSpec (imageIndex + 1)) offsetX offsetY scanMode
      if i6.width < ww ∨ i6.height < wh then o2
      else
        let o3 := detectSingleScaleHost i6 classifier o2
          (scaleSpec (imageIndex + 2)) offsetX offsetY scanMode
        if i5.width < ww ∨ i5.height < wh then o3
        else
          let o4 := detectSingleScaleHost i5 classifier o3
            (scaleSpec (imageIndex + 3)) offsetX offsetY scanMode
          hostLoopSpec classifier ww wh offsetX offsetY scanMode (imageIndex + 4)
            (scale21 i8 i8) (scale21 i7 i7) (scale21 i6 i6) (scale21 i5 i5) o4
termination_by i8.width
decreasing_by
  push_neg at h
  show i8.width / 2 < i8.width
  omega

/-- hostLoop and hostLoopSpec agree, by strong induction on the width of the
leading image of the quadruple. -/
lemma hostLoop_eq_hostLoopSpec_aux (n : ℕ) :
    ∀ (cl : EpCascadeClassifier) (ww wh ox oy m idx : ℕ) (i8 i7 i6 i5 : EpImage)
      (objs : List EpRect), i8.width ≤ n →
      hostLoop cl ww wh ox oy m idx i8 i7 i6 i5 objs =
        hostLoopSpec cl ww wh ox oy m idx i8 i7 i6 i5 objs := by
  induction n with
  | zero =>
    intro cl ww wh ox oy m idx i8 i7 i6 i5 objs hle
    have hg : i8.width < ww ∨ i8.height < wh ∨ ww = 0 := by omega
    rw [hostLoop, hostLoopSpec]
    simp only [dif_pos hg]
  | succ n ih =>
    intro cl ww wh ox oy m idx i8 i7 i6 i5 objs hle
    rw [hostLoop, hostLoopSpec]
    by_cases hg : i8.width < ww ∨ i8.height < wh ∨ ww = 0
    · simp only [dif_pos hg]
    · simp only [dif_neg hg, convert_eq_scaleSpec]
      have hw2 : (scale21 i8 i8).width = i8.width / 2 := rfl
      have hrec : (scale21 i8 i8).width ≤ n := by omega
      by_cases h7 : i7.width < ww ∨ i7.height < wh
      · simp only [if_pos h7]
      · simp only [if_neg h7]
        by_cases h6 : i6.width < ww ∨ i6.height < wh
        · simp only [if_pos h6]
        · simp only [if_neg h6]
          by_cases h5 : i5.width < ww ∨ i5.height < wh
          · simp only [if_pos h5]
          · simp only [if_neg h5]
            exact ih cl ww wh ox oy m (idx + 4) (scale21 i8 i8) (scale21 i7 i7)
              (scale21 i6 i6) (scale21 i5 i5) _ hrec

/-- Appending one mapped element per list item, for any fold body that
appends a single element. -/
lemma foldl_append_eq {α β : Type} (g : List β → α → List β) (f : α → β)
    (hg : ∀ a x, g a x = a ++ [f x]) (l : List α) :
    ∀ acc, l.foldl g acc = acc ++ l.map f := by
  induction l with
  | nil => intro acc; simp
  | cons x xs ih =>
    intro acc
    rw [List.foldl_cons, hg, ih]
    simp

/-- The rectangles contributed by one task in process_results, with the
closed-form scale of the spec written out. -/
def taskRects (imagesProperties : List EpImageProp)
    (windowWidth windowHeight offsetX offsetY : ℕ) (t : EpTaskItem) : List EpRect :=
  (List.range t.itemsCount).map (fun j =>
    let prop := imagesProperties.getD t.imageIndex ⟨0, 0, 0, 0⟩
    let packed := t.objects.getD j 0
    let s := (8 * 2 ^ (t.imageIndex / 4) : ℚ) / ((8 : ℚ) - ((t.imageIndex % 4 : ℕ) : ℚ))
    ⟨((t.offset % prop.step + packed % 65536 : ℕ) : ℚ) * s + (offsetX : ℚ),
     ((t.offset / prop.step + packed / 65536 : ℕ) : ℚ) * s + (offsetY : ℚ),
     (windowWidth : ℚ) * s, (windowHeight : ℚ) * s⟩)

/-- One process_results step appends exactly the rectangles of the task. -/
lemma processResultsStep_eq (props : List EpImageProp) (ww wh ox oy : ℕ)
    (acc : List EpRect × ℕ) (t : EpTaskItem) :
    processResultsStep props ww wh ox oy acc t =
      (acc.1 ++ taskRects props ww wh ox oy t, acc.2 + t.itemsCount) := by
  simp only [processResultsStep, taskRects]
  rw [foldl_append_eq _ _ (fun a x => rfl)]
  simp only [convert_eq_scaleSpec, scaleSpec]

/-- The fold of process_results, for an arbitrary starting accumulator. -/
lemma processResults_foldl (props : List EpImageProp) (ww wh ox oy : ℕ)
    (tasks : List EpTaskItem) :
    ∀ (objs : List EpRect) (n : ℕ),
      tasks.foldl (processResultsStep props ww wh ox oy) (objs, n) =
        (objs ++ tasks.flatMap (taskRects props ww wh ox oy),
         n + (tasks.map (fun t => t.itemsCount)).sum) := by
  induction tasks with
  | nil => intro objs n; simp
  | cons t ts ih =>
    intro objs n
    rw [List.foldl_cons, processResultsStep_eq, ih]
    simp [List.flatMap_cons]
    omega

/-- C1: the level-to-scale mapping is exactly the closed form
(8 shifted left by i / 4) / (8 - i % 4) of the spec, it starts with the
geometric sequence 8/8, 8/7, 8/6, 8/5 and doubles every four levels, the
host multi-scale scan applies precisely this factor at level imageIndex
(hostLoop agrees with hostLoopSpec, which passes the closed form to each
detect_single_scale_host call), and the offload result reconstruction of
process_results multiplies every tile-local coordinate by the closed form at
the task level index. -/
theorem c1_scale_closed_form_used_everywhere :
    (∀ i, convert_image_index_to_scale i =
      (8 * 2 ^ (i / 4) : ℚ) / ((8 : ℚ) - ((i % 4 : ℕ) : ℚ))) ∧
    convert_image_index_to_scale 0 = 8 / 8 ∧
    convert_image_index_to_scale 1 = 8 / 7 ∧
    convert_image_index_to_scale 2 = 8 / 6 ∧
    convert_image_index_to_scale 3 = 8 / 5 ∧
    (∀ i, convert_image_index_to_scale (i + 4) = 2 * convert_image_index_to_scale i) ∧
    (∀ (cl : EpCascadeClassifier) (ww wh ox oy m idx : ℕ) (i8 i7 i6 i5 : EpImage)
      (objs : List EpRect),
      hostLoop cl ww wh ox oy m idx i8 i7 i6 i5 objs =
        hostLoopSpec cl ww wh ox oy m idx i8 i7 i6 i5 objs) ∧
    (∀ (objs : List EpRect) (tasks : List EpTaskItem) (props : List EpImageProp)
      (ww wh ox oy : ℕ),
      processResults objs tasks props ww wh ox oy =
        (objs ++ tasks.flatMap (taskRects props ww wh ox oy),
         (tasks.map (fun t => t.itemsCount)).sum)) := by
  refine ⟨fun i => convert_eq_scaleSpec i,
    by rw [convert_eq_scaleSpec]; norm_num [scaleSpec],
    by rw [convert_eq_scaleSpec]; norm_num [scaleSpec],
    by rw [convert_eq_scaleSpec]; norm_num [scaleSpec],
    by rw [convert_eq_scaleSpec]; norm_num [scaleSpec],
    ?_, ?_, ?_⟩
  · intro i
    rw [convert_eq_scaleSpec, convert_eq_scaleSpec]
    unfold scaleSpec
    rw [Nat.add_div_right i (by norm_num), Nat.add_mod_right, pow_succ]
    ring
  · intro cl ww wh ox oy m idx i8 i7 i6 i5 objs
    exact hostLoop_eq_hostLoopSpec_aux i8.width cl ww wh ox oy m idx i8 i7 i6 i5 objs le_rfl
  · intro objs tasks props ww wh ox oy
    unfold processResults
    rw [processResults_foldl]
    simp

/-! ## Claim C7 -/

/-- Indexing the flattening of uniformly sized rows. -/
lemma flatten_getD (w : ℕ) :
    ∀ (rows : List (List ℕ)), (∀ r ∈ rows, r.length = w) →
      ∀ y x, y < rows.length → x < w →
        rows.flatten.getD (y * w + x) 0 = (rows.getD y []).getD x 0 := by
  intro rows
  induction rows with
  | nil => intro _ y x hy _; exact absurd hy (Nat.not_lt_zero y)
  | cons r rs ih =>
    intro hlen y x hy hx
    cases y with
    | zero =>
      have hr : r.length = w := hlen r (List.mem_cons_self r rs)
      simp only [List.flatten_cons, Nat.zero_mul, Nat.zero_add, List.getD_cons_zero]
      exact List.getD_append r rs.flatten 0 x (by omega)
    | succ y =>
      have hr : r.length = w := hlen r (List.mem_cons_self r rs)
      have hidx : r.length ≤ (y + 1) * w + x := by
        have : w ≤ (y + 1) * w := Nat.le_mul_of_pos_left w (Nat.succ_pos y)
        omega
      simp only [List.flatten_cons, List.getD_cons_succ]
      rw [List.getD_append_right r rs.flatten 0 _ hidx]
      have harith : (y + 1) * w + x - r.length = y * w + x := by
        rw [hr]; ring_nf; omega
      rw [harith]
      exact ih (fun r hr => hlen r (List.mem_cons_of_mem _ hr)) y x
        (Nat.lt_of_succ_lt_succ hy) hx

/-- Every file row of an addressable image has the full width. -/
lemma fileRows_length (img : EpImage) (hws : img.width ≤ img.step)
    (hlen : img.step * img.height ≤ img.data.length) :
    ∀ r ∈ fileRows img, r.length = img.width := by
  intro r hr
  simp only [fileRows, List.mem_map, List.mem_range] at hr
  obtain ⟨y, hy, rfl⟩ := hr
  have hbound : y * img.step + img.width ≤ img.data.length := by
    have h1 : y + 1 ≤ img.height := hy
    have h2 : (y + 1) * img.step ≤ img.height * img.step :=
      Nat.mul_le_mul_right _ h1
    have h3 : y * img.step + img.step ≤ img.height * img.step := by
      rw [← Nat.succ_mul]; exact h2
    have h4 : img.height * img.step = img.step * img.height := Nat.mul_comm _ _
    omega
  simp only [List.length_take, List.length_drop]
  omega

/-- The y-th file row. -/
lemma fileRows_getD (img : EpImage) (y : ℕ) (hy : y < img.height) :
    (fileRows img).getD y [] = (img.data.drop (y * img.step)).take img.width := by
  rw [fileRows, List.getD_eq_getElem?_getD, List.getElem?_map, List.getElem?_range hy]
  rfl

/-- Indexing a row extracted by drop and take. -/
lemma row_getD (d : List ℕ) (a w x : ℕ) (hx : x < w) :
    ((d.drop a).take w).getD x 0 = d.getD (a + x) 0 := by
  rw [List.getD_eq_getElem?_getD, List.getElem?_take, if_pos hx, List.getElem?_drop,
    List.getD_eq_getElem?_getD]

/-- The flattening of the file rows is the contiguous prefix when the stride
equals the width. -/
lemma fileRows_flatten_of_tight (d : List ℕ) (w : ℕ) :
    ∀ h : ℕ, w * h ≤ d.length →
      ((List.range h).map (fun y => (d.drop (y * w)).take w)).flatten = d.take (w * h) := by
  intro h
  induction h with
  | zero => intro _; simp
  | succ h ih =>
    intro hle
    have hle' : w * h ≤ d.length := by
      have : w * h ≤ w * (h + 1) := Nat.mul_le_mul_left w (Nat.le_succ h)
      omega
    rw [List.range_succ, List.map_append, List.flatten_append, ih hle']
    simp only [List.map_cons, List.map_nil, List.flatten_cons, List.flatten_nil,
      List.append_nil]
    rw [Nat.mul_succ, List.take_add]
    congr 1
    rw [Nat.mul_comm h w]

/-- Splitting a sum over range (w * h) into rows. -/
lemma sum_range_mul (f : ℕ → ℕ) (w : ℕ) :
    ∀ h : ℕ, ((List.range (w * h)).map f).sum =
      ((List.range h).map (fun y => ((List.range w).map (fun x => f (y * w + x))).sum)).sum := by
  intro h
  induction h with
  | zero => simp
  | succ h ih =>
    rw [Nat.mul_succ, List.range_add, List.map_append, List.sum_append, ih,
      List.range_succ, List.map_append, List.sum_append]
    have hrow : ((List.map (fun x => w * h + x) (List.range w)).map f).sum
        = ((List.range w).map (fun x => f (h * w + x))).sum := by
      rw [List.map_map]
      apply congrArg List.sum
      apply List.map_congr_left
      intro x _
      simp only [Function.comp_apply]
      rw [Nat.mul_comm h w]
    simp only [List.map_cons, List.map_nil, List.sum_cons, List.sum_nil, Nat.add_zero]
    omega

/-- Both branches of ep_image_checksum compute the sum of the pixels. -/
lemma checksum_eq_sum_pixels (img : EpImage) :
    epImageChecksum img =
      ((List.range img.height).map (fun y =>
        ((List.range img.width).map (fun x => epPixel img x y)).sum)).sum := by
  unfold epImageChecksum
  by_cases hsw : img.step = img.width
  · rw [if_pos hsw, sum_range_mul]
    congr 1
    apply List.map_congr_left
    intro y _
    congr 1
    apply List.map_congr_left
    intro x _
    simp only [epPixel, hsw]
  · rw [if_neg hsw]

/-- Saving an addressable nonempty image always produces the row-packed
pixel payload, whichever write branch is taken. -/
lemma epImageSave_eq (img : EpImage) (hne : img.data ≠ []) (hw0 : img.width ≠ 0)
    (hh0 : img.height ≠ 0) (hlen : img.step * img.height ≤ img.data.length) :
    epImageSave img = .ok ⟨FILE_ID_IMAGE, img.width, img.height, (fileRows img).flatten⟩ := by
  unfold epImageSave
  rw [if_neg (by simp [epImageIsEmpty, hne]), if_neg (by omega)]
  by_cases hsw : img.step = img.width
  · rw [if_pos hsw]
    have hflat : (fileRows img).flatten = img.data.take (img.width * img.height) := by
      have hle : img.width * img.height ≤ img.data.length := by
        rw [← hsw]; exact hlen
      have := fileRows_flatten_of_tight img.data img.width img.height hle
      simp only [fileRows, hsw]
      exact this
    rw [hflat]
  · rw [if_neg hsw]

/-- The row-packed payload has width * height bytes. -/
lemma fileRows_flatten_length (img : EpImage) (hws : img.width ≤ img.step)
    (hlen : img.step * img.height ≤ img.data.length) :
    (fileRows img).flatten.length = img.height * img.width := by
  rw [List.length_flatten]
  have hmap : (fileRows img).map List.length =
      (List.range img.height).map (fun _ => img.width) := by
    have huni := fileRows_length img hws hlen
    simp only [fileRows, List.map_map]
    apply List.map_congr_left
    intro y hy
    exact huni _ (by simp only [fileRows, List.mem_map]; exact ⟨y, hy, rfl⟩)
  rw [hmap]
  induction img.height with
  | zero => simp
  | succ n ih => rw [List.range_succ, List.map_append, List.sum_append]; simp [ih, Nat.succ_mul]

/-- Round-trip of an image through save and load: dimensions, pixels and
checksum are reproduced when the width is 8-aligned or the image has a
single row. -/
lemma image_roundtrip (img : EpImage) (hw0 : img.width ≠ 0) (hh0 : img.height ≠ 0)
    (hws : img.width ≤ img.step) (hlen : img.step * img.height ≤ img.data.length)
    (halign : 8 ∣ img.width ∨ img.height = 1) :
    epImageSave img = .ok ⟨FILE_ID_IMAGE, img.width, img.height, (fileRows img).flatten⟩ ∧
    (epImageLoad ⟨FILE_ID_IMAGE, img.width, img.height, (fileRows img).flatten⟩).2 =
      EpErrorCode.errSuccess ∧
    (epImageLoad ⟨FILE_ID_IMAGE, img.width, img.height, (fileRows img).flatten⟩).1.width =
      img.width ∧
    (epImageLoad ⟨FILE_ID_IMAGE, img.width, img.height, (fileRows img).flatten⟩).1.height =
      img.height ∧
    (∀ x y, x < img.width → y < img.height →
      epPixel (epImageLoad ⟨FILE_ID_IMAGE, img.width, img.height,
        (fileRows img).flatten⟩).1 x y = epPixel img x y) ∧
    epImageChecksum (epImageLoad ⟨FILE_ID_IMAGE, img.width, img.height,
      (fileRows img).flatten⟩).1 = epImageChecksum img := by
  have hne : img.data ≠ [] := by
    have h1 : 0 < img.step * img.height :=
      Nat.mul_pos (by omega) (by omega)
    have : 0 < img.data.length := by omega
    exact List.ne_nil_of_length_pos this
  have hplen := fileRows_flatten_length img hws hlen
  have hload : epImageLoad ⟨FILE_ID_IMAGE, img.width, img.height, (fileRows img).flatten⟩ =
      ({ data := (fileRows img).flatten ++
          (List.replicate (round_up_to_8n img.width * img.height) 0).drop
            (img.width * img.height),
         width := img.width, height := img.height, step := round_up_to_8n img.width },
       EpErrorCode.errSuccess) := by
    unfold epImageLoad
    rw [if_neg (by simp [FILE_ID_IMAGE]), if_neg (by simpa using hw0),
      if_neg (by simpa using hh0),
      if_neg (by
        show ¬((fileRows img).flatten.length < img.width * img.height)
        rw [hplen, Nat.mul_comm img.width img.height]
        omega)]
    simp only [epImageCreate]
    rw [List.take_of_length_le (by
      rw [hplen]
      exact Nat.le_of_eq (Nat.mul_comm _ _))]
  have hpix : ∀ x y, x < img.width → y < img.height →
      epPixel (epImageLoad ⟨FILE_ID_IMAGE, img.width, img.height,
        (fileRows img).flatten⟩).1 x y = epPixel img x y := by
    intro x y hx hy
    rw [hload]
    simp only [epPixel]
    have hylen : (fileRows img).length = img.height := by
      simp [fileRows]
    have hfl := flatten_getD img.width (fileRows img) (fileRows_length img hws hlen) y x
      (by omega) hx
    have hidx : y * round_up_to_8n img.width + x = y * img.width + x := by
      rcases halign with h8 | h1
      · obtain ⟨k, hk⟩ := h8
        have : round_up_to_8n img.width = img.width := by
          unfold round_up_to_8n; omega
        rw [this]
      · have hy0 : y = 0 := by omega
        subst hy0
        simp
    have hin : y * img.width + x < (fileRows img).flatten.length := by
      rw [hplen]
      have h2 : (y + 1) * img.width ≤ img.height * img.width :=
        Nat.mul_le_mul_right _ (by omega)
      have h3 : y * img.width + img.width = (y + 1) * img.width := by ring
      omega
    rw [hidx, List.getD_append _ _ _ _ hin, hfl, fileRows_getD img y (by omega),
      row_getD img.data (y * img.step) img.width x hx]
  refine ⟨epImageSave_eq img hne hw0 hh0 hlen, by rw [hload], by rw [hload], by rw [hload],
    hpix, ?_⟩
  rw [checksum_eq_sum_pixels, checksum_eq_sum_pixels, hload]
  apply congrArg List.sum
  apply List.map_congr_left
  intro y hy
  apply congrArg List.sum
  apply List.map_congr_left
  intro x hx
  rw [List.mem_range] at hy hx
  have := hpix x y hx hy
  rw [hload] at this
  exact this

/-- Round-trip of a structurally valid classifier through save and load. -/
lemma classifier_roundtrip (c : EpCascadeClassifier) (hc : epClassifierCheck c = 0) :
    epClassifierSave c = .ok ⟨FILE_ID_CLASSIFIER, c.length, c⟩ ∧
    epClassifierLoad ⟨FILE_ID_CLASSIFIER, c.length, c⟩ = (c, EpErrorCode.errSuccess) ∧
    epClassifierChecksum (epClassifierLoad ⟨FILE_ID_CLASSIFIER, c.length, c⟩).1 =
      epClassifierChecksum c := by
  have hne : c ≠ [] := by
    intro hnil
    rw [hnil] at hc
    simp [epClassifierCheck, epClassifierIsEmpty] at hc
  have hlen0 : c.length ≠ 0 := by simpa using hne
  have hsave : epClassifierSave c = .ok ⟨FILE_ID_CLASSIFIER, c.length, c⟩ := by
    unfold epClassifierSave
    rw [if_neg (by simp [epClassifierIsEmpty, hne]), if_neg hlen0]
  have hloadtake : c.take c.length = c := List.take_of_length_le le_rfl
  have hload : epClassifierLoad ⟨FILE_ID_CLASSIFIER, c.length, c⟩ =
      (c, EpErrorCode.errSuccess) := by
    unfold epClassifierLoad
    rw [if_neg (by simp [FILE_ID_CLASSIFIER]), if_neg (by simpa using hlen0),
      if_neg (by show ¬(c.length < c.length); omega)]
    simp only [hloadtake]
    rw [if_neg (by simp [hc])]
  exact ⟨hsave, hload, by rw [hload]⟩

/-- C7 counterexample input: the row-packed file saved from imgW1H2. -/
def imgW1H2File : EpImageFile := ⟨FILE_ID_IMAGE, 1, 2, [5, 7]⟩

/-- C7 as stated is false: for the valid 1 x 2 image imgW1H2 (width not a
multiple of 8), save produces the packed two-byte payload, but load reads it
contiguously into a stride-8 buffer, so the reloaded image has pixel (0,1)
equal to 0 instead of 7 and checksum 5 instead of 12. -/
theorem c7_image_roundtrip_counterexample :
    epImageSave imgW1H2 = .ok imgW1H2File ∧
    (epImageLoad imgW1H2File).2 = EpErrorCode.errSuccess ∧
    epPixel (epImageLoad imgW1H2File).1 0 1 ≠ epPixel imgW1H2 0 1 ∧
    epImageChecksum (epImageLoad imgW1H2File).1 ≠ epImageChecksum imgW1H2 := by
  exact ⟨rfl, by decide, by decide, by decide⟩

/-- C7 amended: the save and load round-trip reproduces dimensions, data
bytes and checksum for every valid image whose width is a multiple of 8 or
with a single pixel row (for other geometries the contiguous payload read
into the 8-aligned stride misplaces the rows, see the counterexample), and
for every classifier accepted by the structural validation. -/
theorem c7_roundtrip_amended :
    (∀ img : EpImage, img.width ≠ 0 → img.height ≠ 0 → img.width ≤ img.step →
      img.step * img.height ≤ img.data.length → (8 ∣ img.width ∨ img.height = 1) →
      epImageSave img = .ok ⟨FILE_ID_IMAGE, img.width, img.height, (fileRows img).flatten⟩ ∧
      (epImageLoad ⟨FILE_ID_IMAGE, img.width, img.height, (fileRows img).flatten⟩).2 =
        EpErrorCode.errSuccess ∧
      (epImageLoad ⟨FILE_ID_IMAGE, img.width, img.height, (fileRows img).flatten⟩).1.width =
        img.width ∧
      (epImageLoad ⟨FILE_ID_IMAGE, img.width, img.height, (fileRows img).flatten⟩).1.height =
        img.height ∧
      (∀ x y, x < img.width → y < img.height →
        epPixel (epImageLoad ⟨FILE_ID_IMAGE, img.width, img.height,
          (fileRows img).flatten⟩).1 x y = epPixel img x y) ∧
      epImageChecksum (epImageLoad ⟨FILE_ID_IMAGE, img.width, img.height,
        (fileRows img).flatten⟩).1 = epImageChecksum img) ∧
    (∀ c : EpCascadeClassifier, epClassifierCheck c = 0 →
      epClassifierSave c = .ok ⟨FILE_ID_CLASSIFIER, c.length, c⟩ ∧
      epClassifierLoad ⟨FILE_ID_CLASSIFIER, c.length, c⟩ = (c, EpErrorCode.errSuccess) ∧
      epClassifierChecksum (epClassifierLoad ⟨FILE_ID_CLASSIFIER, c.length, c⟩).1 =
        epClassifierChecksum c) :=
  ⟨fun img hw0 hh0 hws hlen halign => image_roundtrip img hw0 hh0 hws hlen halign,
   fun c hc => classifier_roundtrip c hc⟩

/-- Witness for the amended C7: a concrete 8 x 2 image and the concrete valid
classifier goodBlob round-trip exactly. -/
theorem c7_roundtrip_amended_witness :
    ((epImageLoad ⟨FILE_ID_IMAGE, 8, 2, (fileRows ⟨List.range 16, 8, 2, 8⟩).flatten⟩).1.width = 8 ∧
     epImageChecksum (epImageLoad ⟨FILE_ID_IMAGE, 8, 2,
       (fileRows ⟨List.range 16, 8, 2, 8⟩).flatten⟩).1 =
       epImageChecksum ⟨List.range 16, 8, 2, 8⟩) ∧
    epClassifierLoad ⟨FILE_ID_CLASSIFIER, goodBlob.length, goodBlob⟩ =
      (goodBlob, EpErrorCode.errSuccess) := by
  have himg := (c7_roundtrip_amended.1 ⟨List.range 16, 8, 2, 8⟩ (by decide) (by decide)
    (by decide) (by decide) (by decide))
  have hcls := c7_roundtrip_amended.2 goodBlob (by decide)
  exact ⟨⟨himg.2.2.1, himg.2.2.2.2.2⟩, hcls.2.1⟩

/-! ## Claim C3 -/

/-- divide_round is monotone in the numerator. -/
lemma divide_round_mono (n : ℕ) {a b : ℕ} (h : a ≤ b) :
    divide_round a n ≤ divide_round b n :=
  Nat.div_le_div_right (by omega)

/-- round_to_8n is monotone. -/
lemma round_to_8n_mono {a b : ℕ} (h : a ≤ b) : round_to_8n a ≤ round_to_8n b :=
  Nat.mul_le_mul_right 8 (Nat.div_le_div_right (by omega))

/-- Horizontal tile starts are monotone in the tile column. -/
lemma tileX1_mono (iw th : ℕ) {a b : ℕ} (h : a ≤ b) :
    tileX1 iw th a ≤ tileX1 iw th b :=
  round_to_8n_mono (divide_round_mono th (Nat.mul_le_mul_left iw h))

/-- The first tile column starts at 0. -/
lemma tileX1_zero (iw th : ℕ) (h : 0 < th) : tileX1 iw th 0 = 0 := by
  unfold tileX1 divide_round round_to_8n
  rw [Nat.mul_zero, Nat.zero_add, Nat.div_eq_of_lt (Nat.div_lt_self h (by omega))]

/-- Vertical tile boundaries are monotone in the tile row. -/
lemma tileY1_mono (ih tv : ℕ) {a b : ℕ} (h : a ≤ b) :
    tileY1 ih tv a ≤ tileY1 ih tv b :=
  divide_round_mono tv (Nat.mul_le_mul_left ih h)

/-- The first tile row starts at 0. -/
lemma tileY1_zero (ih tv : ℕ) (h : 0 < tv) : tileY1 ih tv 0 = 0 := by
  unfold tileY1 divide_round
  rw [Nat.mul_zero, Nat.zero_add, Nat.div_eq_of_lt (Nat.div_lt_self h (by omega))]

/-- The final vertical boundary is exactly the corrected height. -/
lemma tileY1_last (ih tv : ℕ) (h : 0 < tv) : tileY1 ih tv tv = ih := by
  unfold tileY1 divide_round
  rw [Nat.mul_comm ih tv, Nat.mul_add_div h, Nat.div_eq_of_lt (Nat.div_lt_self h (by omega)),
    Nat.add_zero]

/-- Horizontal tile starts lie on the 8-pixel grid. -/
lemma tileX1_mod8 (iw th tx : ℕ) : tileX1 iw th tx % 8 = 0 := by
  unfold tileX1 round_to_8n
  exact Nat.mul_mod_left _ 8

/-- Greatest-boundary covering: every x has a greatest tile boundary not
exceeding it, and x lies before the next boundary unless that tile is the
last one. -/
lemma cover1D (f : ℕ → ℕ) (hzero : f 0 = 0) (n x : ℕ) (hn : 0 < n) :
    ∃ k, k < n ∧ f k ≤ x ∧ (k + 1 = n ∨ x < f (k + 1)) := by
  refine ⟨Nat.findGreatest (fun k => f k ≤ x) (n - 1), ?_, ?_, ?_⟩
  · have := Nat.findGreatest_le (P := fun k => f k ≤ x) (n - 1)
    omega
  · exact Nat.findGreatest_spec (P := fun k => f k ≤ x) (Nat.zero_le _)
      (by show f 0 ≤ x; rw [hzero]; exact Nat.zero_le x)
  · by_cases hk : Nat.findGreatest (fun k => f k ≤ x) (n - 1) + 1 = n
    · exact Or.inl hk
    · refine Or.inr ?_
      have hle := Nat.findGreatest_le (P := fun k => f k ≤ x) (n - 1)
      have hgr := Nat.findGreatest_is_greatest
        (P := fun k => f k ≤ x) (k := Nat.findGreatest (fun k => f k ≤ x) (n - 1) + 1)
        (n := n - 1) (by omega) (by omega)
      simp only [] at hgr
      omega

/-- The width stored in a generated task. -/
lemma taskAtIndex_width (scanMode : ℕ) (prop : EpImageProp) (imgIdx ww wh R MTB i : ℕ) :
    (taskAtIndex scanMode prop imgIdx ww wh R MTB i).width =
      ((tileX2 (prop.width - (ww - 1)) (ww - 1)
          (tilesGrid prop.width prop.height ww wh R MTB).1
          (i % (tilesGrid prop.width prop.height ww wh R MTB).1) : ℕ) : ℤ) -
      ((tileX1 (prop.width - (ww - 1))
          (tilesGrid prop.width prop.height ww wh R MTB).1
          (i % (tilesGrid prop.width prop.height ww wh R MTB).1) : ℕ) : ℤ) := rfl

/-- The height stored in a generated task. -/
lemma taskAtIndex_height (scanMode : ℕ) (prop : EpImageProp) (imgIdx ww wh R MTB i : ℕ) :
    (taskAtIndex scanMode prop imgIdx ww wh R MTB i).height =
      tileY1 (prop.height - (wh - 1)) (tilesGrid prop.width prop.height ww wh R MTB).2
          (i / (tilesGrid prop.width prop.height ww wh R MTB).1 + 1) + (wh - 1) -
      tileY1 (prop.height - (wh - 1)) (tilesGrid prop.width prop.height ww wh R MTB).2
          (i / (tilesGrid prop.width prop.height ww wh R MTB).1) := rfl

/-- The byte offset stored in a generated task. -/
lemma taskAtIndex_offset (scanMode : ℕ) (prop : EpImageProp) (imgIdx ww wh R MTB i : ℕ) :
    (taskAtIndex scanMode prop imgIdx ww wh R MTB i).offset =
      tileX1 (prop.width - (ww - 1)) (tilesGrid prop.width prop.height ww wh R MTB).1
          (i % (tilesGrid prop.width prop.height ww wh R MTB).1) +
      tileY1 (prop.height - (wh - 1)) (tilesGrid prop.width prop.height ww wh R MTB).2
          (i / (tilesGrid prop.width prop.height ww wh R MTB).1) * prop.step := rfl

/-- C3 amended: the task tiles generated by add_tasks_for_image leave no gap
(every valid window position of the corrected scan area lies in the
scannable extent of some generated tile), every tile's horizontal start lies
on the 8-pixel grid, and the final tile of each row ends exactly at the
image's right edge.  The union need not be exact: a tile extent may reach
positions at or beyond the corrected width when the 8-pixel rounding pushes
the penultimate boundary past it (see the counterexample). -/
theorem c3_tiling_gapless_amended
    (prop : EpImageProp) (scanMode imgIdx ww wh R MTB th tv iw ih : ℕ)
    (imgs : List EpImageProp) (buf : List EpTaskItem)
    (hthdef : th = (tilesGrid prop.width prop.height ww wh R MTB).1)
    (htvdef : tv = (tilesGrid prop.width prop.height ww wh R MTB).2)
    (hiwdef : iw = prop.width - (ww - 1))
    (hihdef : ih = prop.height - (wh - 1))
    (hprop : imgs.getD imgIdx ⟨0, 0, 0, 0⟩ = prop)
    (h1w : 1 ≤ ww) (hW : ww ≤ prop.width) (hH : wh ≤ prop.height)
    (hth : 0 < th) (htv : 0 < tv) :
    (addTasksForImage scanMode imgs imgIdx ww wh R MTB buf =
      buf ++ (List.range (th * tv)).map (taskAtIndex scanMode prop imgIdx ww wh R MTB)) ∧
    (∀ i, i < th * tv →
      (taskAtIndex scanMode prop imgIdx ww wh R MTB i).offset =
        tileX1 iw th (i % th) + tileY1 ih tv (i / th) * prop.step ∧
      tileX1 iw th (i % th) % 8 = 0 ∧
      (i % th + 1 = th →
        ((tileX1 iw th (i % th) : ℕ) : ℤ) +
          (taskAtIndex scanMode prop imgIdx ww wh R MTB i).width = (prop.width : ℤ))) ∧
    (∀ x y, x < iw → y < ih →
      ∃ i, i < th * tv ∧
        tileX1 iw th (i % th) ≤ x ∧
        ((x : ℤ) + ((ww - 1 : ℕ) : ℤ) <
          ((tileX1 iw th (i % th) : ℕ) : ℤ) +
            (taskAtIndex scanMode prop imgIdx ww wh R MTB i).width) ∧
        tileY1 ih tv (i / th) ≤ y ∧
        y + (wh - 1) < tileY1 ih tv (i / th) +
          (taskAtIndex scanMode prop imgIdx ww wh R MTB i).height) := by
  subst hthdef htvdef hiwdef hihdef
  refine ⟨?_, ?_, ?_⟩
  · simp only [addTasksForImage, hprop]
    rw [foldl_append_eq _ _ (fun a x => rfl)]
  · intro i hi
    refine ⟨taskAtIndex_offset scanMode prop imgIdx ww wh R MTB i,
      tileX1_mod8 _ _ _, ?_⟩
    intro hlast
    rw [taskAtIndex_width]
    unfold tileX2
    rw [if_pos hlast]
    omega
  · intro x y hx hy
    obtain ⟨tx, htx, htxle, htxnext⟩ :=
      cover1D (tileX1 (prop.width - (ww - 1)) (tilesGrid prop.width prop.height ww wh R MTB).1)
        (tileX1_zero _ _ hth) (tilesGrid prop.width prop.height ww wh R MTB).1 x hth
    obtain ⟨ty, hty, htyle, htynext⟩ :=
      cover1D (tileY1 (prop.height - (wh - 1)) (tilesGrid prop.width prop.height ww wh R MTB).2)
        (tileY1_zero _ _ htv) (tilesGrid prop.width prop.height ww wh R MTB).2 y htv
    have hcomm : (tilesGrid prop.width prop.height ww wh R MTB).2 *
        (tilesGrid prop.width prop.height ww wh R MTB).1 =
        (tilesGrid prop.width prop.height ww wh R MTB).1 *
        (tilesGrid prop.width prop.height ww wh R MTB).2 := Nat.mul_comm _ _
    have hmulle : (ty + 1) * (tilesGrid prop.width prop.height ww wh R MTB).1 ≤
        (tilesGrid prop.width prop.height ww wh R MTB).2 *
        (tilesGrid prop.width prop.height ww wh R MTB).1 :=
      Nat.mul_le_mul_right _ hty
    have hexp : ty * (tilesGrid prop.width prop.height ww wh R MTB).1 +
        (tilesGrid prop.width prop.height ww wh R MTB).1 =
        (ty + 1) * (tilesGrid prop.width prop.height ww wh R MTB).1 := by ring
    have imod : (ty * (tilesGrid prop.width prop.height ww wh R MTB).1 + tx) %
        (tilesGrid prop.width prop.height ww wh R MTB).1 = tx := by
      rw [Nat.mul_comm ty _, Nat.mul_add_mod]
      exact Nat.mod_eq_of_lt htx
    have idiv : (ty * (tilesGrid prop.width prop.height ww wh R MTB).1 + tx) /
        (tilesGrid prop.width prop.height ww wh R MTB).1 = ty := by
      rw [Nat.mul_comm ty _, Nat.mul_add_div hth, Nat.div_eq_of_lt htx, Nat.add_zero]
    refine ⟨ty * (tilesGrid prop.width prop.height ww wh R MTB).1 + tx, by omega, ?_, ?_, ?_, ?_⟩
    · rw [imod]; exact htxle
    · rw [taskAtIndex_width, imod]
      unfold tileX2
      by_cases htl : tx + 1 = (tilesGrid prop.width prop.height ww wh R MTB).1
      · rw [if_pos htl]
        omega
      · have hxnext := htxnext.resolve_left htl
        rw [if_neg htl]
        omega
    · rw [idiv]; exact htyle
    · rw [taskAtIndex_height, idiv]
      have hmono : tileY1 (prop.height - (wh - 1))
          (tilesGrid prop.width prop.height ww wh R MTB).2 ty ≤
          tileY1 (prop.height - (wh - 1))
          (tilesGrid prop.width prop.height ww wh R MTB).2 (ty + 1) :=
        tileY1_mono _ _ (Nat.le_succ ty)
      have hnext : y < tileY1 (prop.height - (wh - 1))
          (tilesGrid prop.width prop.height ww wh R MTB).2 (ty + 1) := by
        by_cases htvl : ty + 1 = (tilesGrid prop.width prop.height ww wh R MTB).2
        · rw [htvl, tileY1_last _ _ htv]
          exact hy
        · exact htynext.resolve_left htvl
      omega

/-- C3 as stated is false: for the 35 x 9 level with a 29 x 3 window
(corrected scan area 7 x 7), RECOMMENDED_TILE_SIZE 32 and MAX_TILE_BYTES
4096, the generated first tile starts at offset 0 with width 36 and height 9,
so its scannable extent contains the window position (7, 0): 7 + 28 < 0 + 36
and 0 + 2 < 0 + 9.  Position (7, 0) lies outside the corrected scan area
(7 is not below 35 - 28 = 7), hence the union of tile extents is a strict
superset of the corrected area rather than covering it exactly. -/
theorem c3_exact_cover_counterexample :
    c3Tasks.length = 2 ∧
    (c3Tasks.getD 0 fallbackTask).offset = 0 ∧
    ((7 : ℤ) + 28 < 0 + (c3Tasks.getD 0 fallbackTask).width) ∧
    ((0 : ℕ) + 2 < 0 + (c3Tasks.getD 0 fallbackTask).height) ∧
    ¬((7 : ℕ) < 35 - 28) := by
  decide

/-- Witness for the amended C3 at the concrete 185 x 79 level with a 24 x 24
window, RECOMMENDED_TILE_SIZE 64 and MAX_TILE_BYTES 4096. -/
theorem c3_tiling_gapless_amended_witness :
    ((0 : ℕ) < (tilesGrid 185 79 24 24 64 4096).1 ∧
     (0 : ℕ) < (tilesGrid 185 79 24 24 64 4096).2) ∧
    addTasksForImage SCAN_FULL [c2LevelProp] 0 24 24 64 4096 [] =
      [] ++ (List.range ((tilesGrid 185 79 24 24 64 4096).1 *
        (tilesGrid 185 79 24 24 64 4096).2)).map
        (taskAtIndex SCAN_FULL c2LevelProp 0 24 24 64 4096) := by
  refine ⟨⟨by decide, by decide⟩, ?_⟩
  exact (c3_tiling_gapless_amended c2LevelProp SCAN_FULL 0 24 24 64 4096 _ _ _ _
    [c2LevelProp] [] rfl rfl rfl rfl rfl (by decide) (by decide) (by decide)
    (by decide) (by decide)).1

end FaceDetect




